import Mathlib

/-!
Verification development for the CPU rigid-body physics core of the
vulkan-gpu-physics repository.

The embedding follows the C++ sources directly:

* `ieee`    — a structural model of IEEE-754 single-precision values
              (finite value / +inf / -inf / NaN) with IEEE comparison
              semantics; rounding is not modelled, finite values carry
              exact rationals.
* `ecsf`    — `ECSManager` (managers/ECSManager/ECSManager.cpp and the
              identical copy cpu_physics/managers/ecs_manager/ecs_manager.cpp),
              `RigidBodyComponentFactory`
              (factories/RigidbodyComponentFactory.cpp) and
              `RigidBodyEntityFactory`
              (factories/entities/RigidbodyEntityFactory.cpp), over `ieee`
              values so that non-finite inputs can be discussed.
* `colsys`  — `CPUPhysicsCollisionSystem`
              (physics_engine/cpu_physics_engine/systems/cpu_physics_collision_system.cpp),
              over exact rationals.
* `cpsys`   — `CPUPhysicsSystem` (cpu_physics/CPUPhysicsSystem.cpp),
              over exact rationals.
-/

namespace ieee

/-- Structural model of a C++ `float`: a finite value (exact rational),
one of the two infinities, or NaN. -/
inductive FVal where
  | fin (q : ℚ)
  | pinf
  | ninf
  | nan
deriving DecidableEq

/-- IEEE `<` : any comparison involving NaN is false. -/
def flt : FVal → FVal → Bool
  | .nan, _ => false
  | _, .nan => false
  | .fin a, .fin b => decide (a < b)
  | .fin _, .pinf => true
  | .fin _, .ninf => false
  | .pinf, _ => false
  | .ninf, .ninf => false
  | .ninf, _ => true

/-- IEEE `<=` : any comparison involving NaN is false. -/
def fle : FVal → FVal → Bool
  | .nan, _ => false
  | _, .nan => false
  | .fin a, .fin b => decide (a ≤ b)
  | .fin _, .pinf => true
  | .fin _, .ninf => false
  | .pinf, .pinf => true
  | .pinf, _ => false
  | .ninf, _ => true

/-- IEEE `>`. -/
def fgt (a b : FVal) : Bool := flt b a

/-- IEEE `>=`. -/
def fge (a b : FVal) : Bool := fle b a

/-- IEEE division, restricted to the sign/limit structure (the exact
rational quotient stands in for the rounded quotient). -/
def fdiv : FVal → FVal → FVal
  | .nan, _ => .nan
  | _, .nan => .nan
  | .fin a, .fin b =>
      if b = 0 then (if a = 0 then .nan else if 0 < a then .pinf else .ninf)
      else .fin (a / b)
  | .fin _, .pinf => .fin 0
  | .fin _, .ninf => .fin 0
  | .pinf, .fin b => if 0 ≤ b then .pinf else .ninf
  | .ninf, .fin b => if 0 ≤ b then .ninf else .pinf
  | .pinf, _ => .nan
  | .ninf, _ => .nan

/-- `std::isfinite`. -/
def isfinite : FVal → Bool
  | .fin _ => true
  | _ => false

/-- IEEE negation. -/
def fneg : FVal → FVal
  | .fin q => .fin (-q)
  | .pinf => .ninf
  | .ninf => .pinf
  | .nan => .nan

/-- IEEE addition (structural: NaN propagates, opposite infinities give
NaN; the exact rational sum stands in for the rounded sum). -/
def fadd : FVal → FVal → FVal
  | .nan, _ => .nan
  | _, .nan => .nan
  | .fin a, .fin b => .fin (a + b)
  | .fin _, .pinf => .pinf
  | .pinf, .fin _ => .pinf
  | .fin _, .ninf => .ninf
  | .ninf, .fin _ => .ninf
  | .pinf, .pinf => .pinf
  | .ninf, .ninf => .ninf
  | .pinf, .ninf => .nan
  | .ninf, .pinf => .nan

/-- IEEE subtraction, `a + (-b)`. -/
def fsub (a b : FVal) : FVal := fadd a (fneg b)

/-- IEEE multiplication (structural: NaN propagates, `0 * inf` is NaN). -/
def fmul : FVal → FVal → FVal
  | .nan, _ => .nan
  | _, .nan => .nan
  | .fin a, .fin b => .fin (a * b)
  | .fin a, .pinf => if a = 0 then .nan else if 0 < a then .pinf else .ninf
  | .pinf, .fin a => if a = 0 then .nan else if 0 < a then .pinf else .ninf
  | .fin a, .ninf => if a = 0 then .nan else if 0 < a then .ninf else .pinf
  | .ninf, .fin a => if a = 0 then .nan else if 0 < a then .ninf else .pinf
  | .pinf, .pinf => .pinf
  | .ninf, .ninf => .pinf
  | .pinf, .ninf => .ninf
  | .ninf, .pinf => .ninf

/-- `std::min(a, b)`, which is `(b < a) ? b : a`. -/
def fminStd (a b : FVal) : FVal := if flt b a then b else a

end ieee

namespace ecsf

open ieee

/-- Three floats, as used for positions / scales / velocities. -/
structure FV3 where
  x : FVal
  y : FVal
  z : FVal
deriving DecidableEq

/-- Four floats, the (w,x,y,z) quaternion array of `TransformComponent`. -/
structure FQuat where
  w : FVal
  x : FVal
  y : FVal
  z : FVal
deriving DecidableEq

/-- `TransformComponent` (components/TransformComponent.h). -/
structure TransformComponent where
  position : FV3
  rotation : FQuat
  scale : FV3
deriving DecidableEq

/-- `PhysicsComponent` (components/PhysicsComponent.h). -/
structure PhysicsComponent where
  velocity : FV3
  angularVelocity : FV3
  mass : FVal
  invMass : FVal
  restitution : FVal
  friction : FVal
  isStatic : Bool
  useGravity : Bool
deriving DecidableEq

/-- `BoxColliderComponent` (components/BoxColliderComponent.h). -/
structure BoxColliderComponent where
  width : FVal
  height : FVal
  depth : FVal
  enabled : Bool
deriving DecidableEq

/-- Association-list lookup, the read side of the component hash maps. -/
def getAssoc {α : Type} : List (ℕ × α) → ℕ → Option α
  | [], _ => none
  | (k, v) :: rest, i => if k = i then some v else getAssoc rest i

/-- Association-list store, the write side of `map[key] = value`: an
existing entry is overwritten in place, otherwise the entry is appended. -/
def setAssoc {α : Type} : List (ℕ × α) → ℕ → α → List (ℕ × α)
  | [], i, v => [(i, v)]
  | (k, w) :: rest, i, v =>
      if k = i then (i, v) :: rest else (k, w) :: setAssoc rest i v

/-- Association-list erase, `map.erase(key)`. -/
def eraseAssoc {α : Type} : List (ℕ × α) → ℕ → List (ℕ × α)
  | [], _ => []
  | (k, w) :: rest, i =>
      if k = i then rest else (k, w) :: eraseAssoc rest i

/-- The state owned by `ECSManager` (ECSManager.h/.cpp): the live-entity
list, the id counter (starts at 1) and the three component tables. -/
structure ECSManager where
  nextEntityId : ℕ
  entities : List ℕ
  transformComponents : List (ℕ × TransformComponent)
  physicsComponents : List (ℕ × PhysicsComponent)
  boxColliderComponents : List (ℕ × BoxColliderComponent)
deriving DecidableEq

/-- Fresh manager, per the member initializers of `ECSManager.h`. -/
def ECSManager.init : ECSManager := ⟨1, [], [], [], []⟩

/-- `ECSManager::createEntity` (ECSManager.cpp:12-18). -/
def createEntity (m : ECSManager) : ℕ × ECSManager :=
  (m.nextEntityId,
   { m with nextEntityId := m.nextEntityId + 1,
            entities := m.entities ++ [m.nextEntityId] })

/-- `ECSManager::isEntityValid` (ECSManager.cpp:38-40). -/
def isEntityValid (m : ECSManager) (entityId : ℕ) : Bool :=
  m.entities.contains entityId

/-- `ECSManager::destroyEntity` (ECSManager.cpp:20-36). -/
def destroyEntity (m : ECSManager) (entityId : ℕ) : Bool × ECSManager :=
  if m.entities.contains entityId then
    (true,
     { m with entities := m.entities.erase entityId,
              transformComponents := eraseAssoc m.transformComponents entityId,
              physicsComponents := eraseAssoc m.physicsComponents entityId,
              boxColliderComponents := eraseAssoc m.boxColliderComponents entityId })
  else (false, m)

/-- `ECSManager::addComponent(entityId, TransformComponent)`
(ECSManager.cpp:42-48): fails only for unknown ids;
`transformComponents[entityId] = component` overwrites. -/
def addTransformComponent (m : ECSManager) (entityId : ℕ)
    (component : TransformComponent) : Bool × ECSManager :=
  if isEntityValid m entityId then
    (true, { m with transformComponents :=
               setAssoc m.transformComponents entityId component })
  else (false, m)

/-- `ECSManager::addComponent(entityId, PhysicsComponent)`
(ECSManager.cpp:50-56). -/
def addPhysicsComponent (m : ECSManager) (entityId : ℕ)
    (component : PhysicsComponent) : Bool × ECSManager :=
  if isEntityValid m entityId then
    (true, { m with physicsComponents :=
               setAssoc m.physicsComponents entityId component })
  else (false, m)

/-- `ECSManager::addComponent(entityId, BoxColliderComponent)`
(ECSManager.cpp:58-64). -/
def addBoxColliderComponent (m : ECSManager) (entityId : ℕ)
    (component : BoxColliderComponent) : Bool × ECSManager :=
  if isEntityValid m entityId then
    (true, { m with boxColliderComponents :=
               setAssoc m.boxColliderComponents entityId component })
  else (false, m)

/-- `ECSManager::getPhysicsComponent` (ECSManager.cpp:82-85). -/
def getPhysicsComponent (m : ECSManager) (entityId : ℕ) :
    Option PhysicsComponent :=
  getAssoc m.physicsComponents entityId

/-- `RigidBodyComponentFactory::initializeQuaternion`
(RigidbodyComponentFactory.cpp:168-174). -/
def initializeQuaternion : FQuat :=
  ⟨.fin 1, .fin 0, .fin 0, .fin 0⟩

/-- `RigidBodyComponentFactory::createTransformComponent`
(RigidbodyComponentFactory.cpp:11-27). -/
def createTransformComponent (x y z sx sy sz : FVal) : TransformComponent :=
  { position := ⟨x, y, z⟩
    rotation := initializeQuaternion
    scale := ⟨sx, sy, sz⟩ }

/-- `RigidBodyComponentFactory::calculateInverseMass`
(RigidbodyComponentFactory.cpp:176-182). -/
def calculateInverseMass (physics : PhysicsComponent) : PhysicsComponent :=
  if physics.isStatic || fle physics.mass (.fin 0) then
    { physics with invMass := .fin 0 }
  else
    { physics with invMass := fdiv (.fin 1) physics.mass }

/-- `RigidBodyComponentFactory::createPhysicsComponent`
(RigidbodyComponentFactory.cpp:29-50). -/
def createPhysicsComponent (mass : FVal) (isStatic useGravity : Bool)
    (restitution friction : FVal) : PhysicsComponent :=
  calculateInverseMass
    { velocity := ⟨.fin 0, .fin 0, .fin 0⟩
      angularVelocity := ⟨.fin 0, .fin 0, .fin 0⟩
      mass := mass
      invMass := .fin 1
      restitution := restitution
      friction := friction
      isStatic := isStatic
      useGravity := useGravity }

/-- `RigidBodyComponentFactory::createStaticPhysics`
(RigidbodyComponentFactory.cpp:71-73). -/
def createStaticPhysics : PhysicsComponent :=
  createPhysicsComponent (.fin 0) true false (.fin (3/10)) (.fin (4/5))

/-- `RigidBodyComponentFactory::createDynamicPhysics`
(RigidbodyComponentFactory.cpp:75-77). -/
def createDynamicPhysics (mass : FVal) : PhysicsComponent :=
  createPhysicsComponent mass false true (.fin (1/2)) (.fin (3/10))

/-- `RigidBodyComponentFactory::createBoxColliderComponent`
(RigidbodyComponentFactory.cpp:52-65). -/
def createBoxColliderComponent (width height depth : FVal) (enabled : Bool) :
    BoxColliderComponent :=
  { width := width, height := height, depth := depth, enabled := enabled }

/-- `RigidBodyComponentFactory::createBoxCollider`
(RigidbodyComponentFactory.cpp:79-81). -/
def createBoxCollider (width height depth : FVal) : BoxColliderComponent :=
  createBoxColliderComponent width height depth true

/-- `RigidBodyEntityFactory::validateRigidBodyParameters`
(factories/entities/RigidbodyEntityFactory.cpp:133-139): the position
arguments are cast to void and not inspected; only the IEEE tests
`width > 0 && height > 0 && depth > 0 && mass >= 0` run. -/
def validateRigidBodyParameters (x y z width height depth mass : FVal) :
    Bool :=
  fgt width (.fin 0) && fgt height (.fin 0) && fgt depth (.fin 0) &&
    fge mass (.fin 0)

/-- `RigidBodyEntityFactory::addAllComponents`
(factories/entities/RigidbodyEntityFactory.cpp:119-131): the three
`addComponent` results are discarded and `true` is returned. -/
def addAllComponents (m : ECSManager) (entityId : ℕ)
    (transform : TransformComponent) (physics : PhysicsComponent)
    (collider : BoxColliderComponent) (layer : ℕ) : Bool × ECSManager :=
  let (_, m1) := addTransformComponent m entityId transform
  let (_, m2) := addPhysicsComponent m1 entityId physics
  let (_, m3) := addBoxColliderComponent m2 entityId collider
  let _ := layer
  (true, m3)

/-- `RigidBodyEntityFactory::createRigidBody`
(factories/entities/RigidbodyEntityFactory.cpp:9-24). -/
def createRigidBody (m : ECSManager) (x y z width height depth mass : FVal)
    (layer : ℕ) : ℕ × ECSManager :=
  if !validateRigidBodyParameters x y z width height depth mass then (0, m)
  else
    let (entityId, m1) := createEntity m
    let transform := createTransformComponent x y z (.fin 1) (.fin 1) (.fin 1)
    let physics := createDynamicPhysics mass
    let collider := createBoxCollider width height depth
    let (ok, m2) := addAllComponents m1 entityId transform physics collider layer
    if !ok then
      let (_, m3) := destroyEntity m2 entityId
      (0, m3)
    else (entityId, m2)

end ecsf

namespace colsys

/-- Three floats (exact-rational model), used for positions, scales and
velocities. -/
structure V3 where
  x : ℚ
  y : ℚ
  z : ℚ
deriving DecidableEq

namespace V3

/-- Indexed access, mirroring `float v[3]`: 0 ↦ x, 1 ↦ y, other ↦ z. -/
def get (v : V3) : ℕ → ℚ
  | 0 => v.x
  | 1 => v.y
  | _ => v.z

/-- The vector that is `q` on axis `k` (0, 1 or 2) and zero elsewhere. -/
def single (k : ℕ) (q : ℚ) : V3 :=
  ⟨if k = 0 then q else 0, if k = 1 then q else 0,
   if k = 0 ∨ k = 1 then 0 else q⟩

@[simp] theorem get_zero (v : V3) : v.get 0 = v.x := rfl

@[simp] theorem get_one (v : V3) : v.get 1 = v.y := rfl

@[simp] theorem get_two (v : V3) : v.get 2 = v.z := rfl

instance : Add V3 := ⟨fun a b => ⟨a.x + b.x, a.y + b.y, a.z + b.z⟩⟩

instance : Sub V3 := ⟨fun a b => ⟨a.x - b.x, a.y - b.y, a.z - b.z⟩⟩

instance : SMul ℚ V3 := ⟨fun q v => ⟨q * v.x, q * v.y, q * v.z⟩⟩

/-- Component-wise dot product. -/
def dot (a b : V3) : ℚ := a.x * b.x + a.y * b.y + a.z * b.z

theorem add_def (a b : V3) : a + b = ⟨a.x + b.x, a.y + b.y, a.z + b.z⟩ := rfl

theorem sub_def (a b : V3) : a - b = ⟨a.x - b.x, a.y - b.y, a.z - b.z⟩ := rfl

theorem smul_def (q : ℚ) (v : V3) : q • v = ⟨q * v.x, q * v.y, q * v.z⟩ := rfl

theorem add_zero_smul (v w : V3) : v + (0 : ℚ) • w = v := by
  cases v; simp [smul_def, add_def]

theorem sub_zero_smul (v w : V3) : v - (0 : ℚ) • w = v := by
  cases v; simp [smul_def, sub_def]

end V3

/-- Four floats, the (w,x,y,z) quaternion array of `TransformComponent`. -/
structure Quat where
  w : ℚ
  x : ℚ
  y : ℚ
  z : ℚ
deriving DecidableEq

/-- `TransformComponent` (components.h / CPUPhysicsSystem.h). -/
structure TransformComponent where
  position : V3
  rotation : Quat
  scale : V3
deriving DecidableEq

/-- `PhysicsComponent` (components.h / CPUPhysicsSystem.h). -/
structure PhysicsComponent where
  velocity : V3
  angularVelocity : V3
  mass : ℚ
  invMass : ℚ
  restitution : ℚ
  friction : ℚ
  isStatic : Bool
  useGravity : Bool
deriving DecidableEq

/-- `BoxColliderComponent` (components.h / CPUPhysicsSystem.h). -/
structure BoxColliderComponent where
  width : ℚ
  height : ℚ
  depth : ℚ
  enabled : Bool
deriving DecidableEq

/-- Indexed access to the three box dimensions: 0 ↦ width, 1 ↦ height,
other ↦ depth. -/
def BoxColliderComponent.size (c : BoxColliderComponent) : ℕ → ℚ
  | 0 => c.width
  | 1 => c.height
  | _ => c.depth

@[simp] theorem BoxColliderComponent.size_zero (c : BoxColliderComponent) :
    c.size 0 = c.width := rfl

@[simp] theorem BoxColliderComponent.size_one (c : BoxColliderComponent) :
    c.size 1 = c.height := rfl

@[simp] theorem BoxColliderComponent.size_two (c : BoxColliderComponent) :
    c.size 2 = c.depth := rfl

/-- `CPUPhysicsCollisionSystem::CollisionPair`
(CpuPhysicsCollisionSystem.h:56-62). -/
structure CollisionPair where
  entityA : ℕ
  entityB : ℕ
  penetrationDepth : ℚ
  normal : V3
  contactPoint : V3
deriving DecidableEq

/-- `CPUPhysicsCollisionSystem::AABB` (CpuPhysicsCollisionSystem.h:108-111). -/
structure AABB where
  minX : ℚ
  minY : ℚ
  minZ : ℚ
  maxX : ℚ
  maxY : ℚ
  maxZ : ℚ
deriving DecidableEq

/-- The component tables that `CPUPhysicsCollisionSystem` reads through
`ECSManager::getComponent<T>`, abstracted as their lookup maps. -/
structure Store where
  transforms : ℕ → Option TransformComponent
  physics : ℕ → Option PhysicsComponent
  colliders : ℕ → Option BoxColliderComponent

/-- `CPUPhysicsCollisionSystem::calculateAABB`
(cpu_physics_collision_system.cpp:399-415). -/
def calculateAABB (transform : TransformComponent)
    (collider : BoxColliderComponent) : AABB :=
  let halfWidth := collider.width * transform.scale.x * (1/2)
  let halfHeight := collider.height * transform.scale.y * (1/2)
  let halfDepth := collider.depth * transform.scale.z * (1/2)
  { minX := transform.position.x - halfWidth
    maxX := transform.position.x + halfWidth
    minY := transform.position.y - halfHeight
    maxY := transform.position.y + halfHeight
    minZ := transform.position.z - halfDepth
    maxZ := transform.position.z + halfDepth }

/-- `CPUPhysicsCollisionSystem::aabbOverlap`
(cpu_physics_collision_system.cpp:417-421): inclusive on boundaries. -/
def aabbOverlap (a b : AABB) : Bool :=
  decide (a.minX ≤ b.maxX) && decide (a.maxX ≥ b.minX) &&
  decide (a.minY ≤ b.maxY) && decide (a.maxY ≥ b.minY) &&
  decide (a.minZ ≤ b.maxZ) && decide (a.maxZ ≥ b.minZ)

/-- The ordered pairs `(entities[i], entities[j])` with `i < j`, the
iteration pattern of the two nested loops in `broadPhaseDetection` and
`detectCollisions`. -/
def loopPairs : List ℕ → List (ℕ × ℕ)
  | [] => []
  | a :: rest => rest.map (fun b => (a, b)) ++ loopPairs rest

/-- The body of the broad-phase inner loop
(cpu_physics_collision_system.cpp:195-207): both entities must have a
transform and a collider, and the two AABBs must overlap; the physics
component (and with it `isStatic`) is never consulted. -/
def broadPhaseAccepts (st : Store) (entityA entityB : ℕ) : Bool :=
  match st.transforms entityA, st.transforms entityB,
        st.colliders entityA, st.colliders entityB with
  | some transformA, some transformB, some colliderA, some colliderB =>
      aabbOverlap (calculateAABB transformA colliderA)
        (calculateAABB transformB colliderB)
  | _, _, _, _ => false

/-- `CPUPhysicsCollisionSystem::broadPhaseDetection`
(cpu_physics_collision_system.cpp:186-212). -/
def broadPhaseDetection (st : Store) (entities : List ℕ) : List (ℕ × ℕ) :=
  (loopPairs entities).filter (fun p => broadPhaseAccepts st p.1 p.2)

/-- `CPUPhysicsCollisionSystem::canEntitiesCollide`
(cpu_physics_collision_system.cpp:390-397): the entity ids are ignored;
if a callback is installed it is asked about `(0, 0)`, otherwise the
answer is `true`. -/
def canEntitiesCollide (canLayersInteract : Option (ℕ → ℕ → Bool))
    (entityA entityB : ℕ) : Bool :=
  let _ := entityA
  let _ := entityB
  match canLayersInteract with
  | some f => f 0 0
  | none => true

/-- Per-axis penetration used by `checkBoxBoxCollision`:
`(halfExtentsA[i] + halfExtentsB[i]) - |posA[i] - posB[i]|`
(cpu_physics_collision_system.cpp:240-269). -/
def penAxis (transformA : TransformComponent) (colliderA : BoxColliderComponent)
    (transformB : TransformComponent) (colliderB : BoxColliderComponent)
    (i : ℕ) : ℚ :=
  (colliderA.size i * transformA.scale.get i * (1/2) +
   colliderB.size i * transformB.scale.get i * (1/2)) -
    |transformA.position.get i - transformB.position.get i|

/-- `CPUPhysicsCollisionSystem::checkBoxBoxCollision`
(cpu_physics_collision_system.cpp:234-297), returning the
`(penetrationDepth, normal, contactPoint)` triple it writes into the
collision record, or `none` when a separating axis exists. -/
def checkBoxBoxCollision (transformA : TransformComponent)
    (colliderA : BoxColliderComponent) (transformB : TransformComponent)
    (colliderB : BoxColliderComponent) : Option (ℚ × V3 × V3) :=
  let pen := penAxis transformA colliderA transformB colliderB
  if pen 0 ≤ 0 ∨ pen 1 ≤ 0 ∨ pen 2 ≤ 0 then none
  else
    let axis1 := if pen 1 < pen 0 then 1 else 0
    let minAxis := if pen 2 < pen axis1 then 2 else axis1
    let normal := V3.single minAxis
      (if transformA.position.get minAxis > transformB.position.get minAxis
       then 1 else -1)
    let contactPoint : V3 :=
      ⟨(transformA.position.x + transformB.position.x) * (1/2),
       (transformA.position.y + transformB.position.y) * (1/2),
       (transformA.position.z + transformB.position.z) * (1/2)⟩
    some (pen minAxis, normal, contactPoint)

/-- `CPUPhysicsCollisionSystem::narrowPhaseDetection`
(cpu_physics_collision_system.cpp:214-232). -/
def narrowPhaseDetection (st : Store) (entityA entityB : ℕ) :
    Option CollisionPair :=
  match st.transforms entityA, st.transforms entityB,
        st.colliders entityA, st.colliders entityB with
  | some transformA, some transformB, some colliderA, some colliderB =>
      if !colliderA.enabled || !colliderB.enabled then none
      else
        match checkBoxBoxCollision transformA colliderA transformB colliderB with
        | some (depth, normal, point) =>
            some { entityA := entityA, entityB := entityB,
                   penetrationDepth := depth, normal := normal,
                   contactPoint := point }
        | none => none
  | _, _, _, _ => none

/-- `CPUPhysicsCollisionSystem::detectCollisions`
(cpu_physics_collision_system.cpp:67-90): broad phase (or all pairs when
disabled), then the layer callback, then narrow phase. -/
def detectCollisions (canLayersInteract : Option (ℕ → ℕ → Bool))
    (broadPhaseEnabled : Bool) (st : Store) (entities : List ℕ) :
    List CollisionPair :=
  let candidatePairs :=
    if broadPhaseEnabled then broadPhaseDetection st entities
    else loopPairs entities
  candidatePairs.filterMap (fun p =>
    if canEntitiesCollide canLayersInteract p.1 p.2 then
      narrowPhaseDetection st p.1 p.2
    else none)

/-- `CPUPhysicsCollisionSystem::applyGravity`
(cpu_physics_collision_system.cpp:158-168). -/
def applyGravity (gravity : V3) (deltaTime : ℚ)
    (physics : PhysicsComponent) : PhysicsComponent :=
  if physics.isStatic || decide (physics.invMass ≤ 0) then physics
  else { physics with velocity := physics.velocity + deltaTime • gravity }

/-- `CPUPhysicsCollisionSystem::integratePhysics`
(cpu_physics_collision_system.cpp:139-156): static bodies are skipped;
otherwise gravity (when enabled) then the fixed 0.99 damping on linear
and angular velocity. -/
def integratePhysics (gravity : V3) (deltaTime : ℚ)
    (physics : PhysicsComponent) : PhysicsComponent :=
  if physics.isStatic then physics
  else
    let p1 := if physics.useGravity then applyGravity gravity deltaTime physics
              else physics
    { p1 with velocity := (99/100 : ℚ) • p1.velocity,
              angularVelocity := (99/100 : ℚ) • p1.angularVelocity }

/-- `CPUPhysicsCollisionSystem::updateTransformFromPhysics`
(cpu_physics_collision_system.cpp:170-184): static bodies are skipped;
otherwise `position += velocity * deltaTime`. -/
def updateTransformFromPhysics (deltaTime : ℚ)
    (transform : TransformComponent) (physics : PhysicsComponent) :
    TransformComponent :=
  if physics.isStatic then transform
  else { transform with
          position := transform.position + deltaTime • physics.velocity }

/-- Relative velocity of A with respect to B along the contact normal
(cpu_physics_collision_system.cpp:346-355). -/
def velAlongNormal (physicsA physicsB : PhysicsComponent) (normal : V3) :
    ℚ :=
  V3.dot (physicsA.velocity - physicsB.velocity) normal

/-- `CPUPhysicsCollisionSystem::applyCollisionImpulse`
(cpu_physics_collision_system.cpp:337-381), acting on the two physics
components named by the collision. -/
def applyCollisionImpulse (physicsA physicsB : PhysicsComponent)
    (normal : V3) : PhysicsComponent × PhysicsComponent :=
  let v := velAlongNormal physicsA physicsB normal
  if 0 < v then (physicsA, physicsB)
  else
    let restitution := min physicsA.restitution physicsB.restitution
    let impulseMagnitude :=
      (-(1 + restitution) * v) / (physicsA.invMass + physicsB.invMass)
    (if physicsA.isStatic then physicsA
     else { physicsA with velocity :=
              physicsA.velocity + (impulseMagnitude * physicsA.invMass) • normal },
     if physicsB.isStatic then physicsB
     else { physicsB with velocity :=
              physicsB.velocity - (impulseMagnitude * physicsB.invMass) • normal })

/-- `CPUPhysicsCollisionSystem::separateEntities`
(cpu_physics_collision_system.cpp:304-335), acting on the two transforms
and physics components named by the collision. -/
def separateEntities (transformA transformB : TransformComponent)
    (physicsA physicsB : PhysicsComponent) (normal : V3)
    (penetrationDepth : ℚ) : TransformComponent × TransformComponent :=
  let totalInvMass := physicsA.invMass + physicsB.invMass
  if totalInvMass ≤ 0 then (transformA, transformB)
  else
    let separationA := physicsA.invMass / totalInvMass * penetrationDepth * (1/2)
    let separationB := physicsB.invMass / totalInvMass * penetrationDepth * (1/2)
    (if physicsA.isStatic then transformA
     else { transformA with position := transformA.position + separationA • normal },
     if physicsB.isStatic then transformB
     else { transformB with position := transformB.position - separationB • normal })

end colsys

namespace cpsys

open colsys (V3 Quat TransformComponent PhysicsComponent BoxColliderComponent)

/-- `RigidBodyComponent` (CPUPhysicsSystem.h:39-46): one stored entity
with its three components, its layer and a collider flag. -/
structure RigidBodyComponent where
  entityId : ℕ
  transform : TransformComponent
  physics : PhysicsComponent
  collider : BoxColliderComponent
  layer : ℕ
  hasCollider : Bool
deriving DecidableEq

/-- `PhysicsLayer` (CPUPhysicsSystem.h:49-53). -/
structure PhysicsLayer where
  id : ℕ
  name : String
  interactionLayers : List ℕ
deriving DecidableEq

/-- The `layers` map of `CPUPhysicsSystem`, as an association list. -/
def LayerMap : Type := List (ℕ × PhysicsLayer)

/-- `CPUPhysicsSystem::canLayersInteract` (CPUPhysicsSystem.cpp:166-174):
`false` when `layer1` is not registered, otherwise membership of
`layer2` in `layer1`'s interaction list. -/
def canLayersInteract (layers : LayerMap) (layer1 layer2 : ℕ) : Bool :=
  match ecsf.getAssoc layers layer1 with
  | none => false
  | some l => l.interactionLayers.contains layer2

/-- `CPUPhysicsSystem::checkBoxBoxCollision` (CPUPhysicsSystem.cpp:234-253):
inclusive AABB overlap of the two unscaled box colliders. -/
def checkBoxBoxCollision (body1 body2 : RigidBodyComponent) : Bool :=
  let minX1 := body1.transform.position.x - body1.collider.width * (1/2)
  let maxX1 := body1.transform.position.x + body1.collider.width * (1/2)
  let minY1 := body1.transform.position.y - body1.collider.height * (1/2)
  let maxY1 := body1.transform.position.y + body1.collider.height * (1/2)
  let minZ1 := body1.transform.position.z - body1.collider.depth * (1/2)
  let maxZ1 := body1.transform.position.z + body1.collider.depth * (1/2)
  let minX2 := body2.transform.position.x - body2.collider.width * (1/2)
  let maxX2 := body2.transform.position.x + body2.collider.width * (1/2)
  let minY2 := body2.transform.position.y - body2.collider.height * (1/2)
  let maxY2 := body2.transform.position.y + body2.collider.height * (1/2)
  let minZ2 := body2.transform.position.z - body2.collider.depth * (1/2)
  let maxZ2 := body2.transform.position.z + body2.collider.depth * (1/2)
  decide (minX1 ≤ maxX2) && decide (maxX1 ≥ minX2) &&
  decide (minY1 ≤ maxY2) && decide (maxY1 ≥ minY2) &&
  decide (minZ1 ≤ maxZ2) && decide (maxZ1 ≥ minZ2)

/-- `CPUPhysicsSystem::resolveCollision` (CPUPhysicsSystem.cpp:255-317):
fused positional separation (by the full minimum penetration, no 0.5
factor) followed by the restitution impulse; returns the two updated
bodies. -/
def resolveCollision (body1 body2 : RigidBodyComponent) :
    RigidBodyComponent × RigidBodyComponent :=
  let dx := body1.transform.position.x - body2.transform.position.x
  let dy := body1.transform.position.y - body2.transform.position.y
  let dz := body1.transform.position.z - body2.transform.position.z
  let penetrationX := (body1.collider.width + body2.collider.width) * (1/2) - |dx|
  let penetrationY := (body1.collider.height + body2.collider.height) * (1/2) - |dy|
  let penetrationZ := (body1.collider.depth + body2.collider.depth) * (1/2) - |dz|
  let minPenetration := min (min penetrationX penetrationY) penetrationZ
  let normalX : ℚ := if minPenetration = penetrationX then
      (if 0 < dx then 1 else -1) else 0
  let normalY : ℚ := if minPenetration = penetrationX then 0
    else if minPenetration = penetrationY then (if 0 < dy then 1 else -1) else 0
  let normalZ : ℚ := if minPenetration = penetrationX ∨ minPenetration = penetrationY
    then 0 else (if 0 < dz then 1 else -1)
  let separation := minPenetration
  let totalInvMass := body1.physics.invMass + body2.physics.invMass
  if 0 < totalInvMass then
    let r1 := body1.physics.invMass / totalInvMass
    let r2 := body2.physics.invMass / totalInvMass
    let p1 : V3 := body1.transform.position +
      ⟨normalX * separation * r1, normalY * separation * r1, normalZ * separation * r1⟩
    let p2 : V3 := body2.transform.position -
      ⟨normalX * separation * r2, normalY * separation * r2, normalZ * separation * r2⟩
    let body1a := { body1 with transform := { body1.transform with position := p1 } }
    let body2a := { body2 with transform := { body2.transform with position := p2 } }
    let restitution := min body1.physics.restitution body2.physics.restitution
    let relativeVelX := body1.physics.velocity.x - body2.physics.velocity.x
    let relativeVelY := body1.physics.velocity.y - body2.physics.velocity.y
    let relativeVelZ := body1.physics.velocity.z - body2.physics.velocity.z
    let contactVel := relativeVelX * normalX + relativeVelY * normalY +
      relativeVelZ * normalZ
    if 0 < contactVel then (body1a, body2a)
    else
      let impulse := -(1 + restitution) * contactVel / totalInvMass
      let v1 : V3 := body1.physics.velocity +
        ⟨impulse * normalX * body1.physics.invMass,
         impulse * normalY * body1.physics.invMass,
         impulse * normalZ * body1.physics.invMass⟩
      let v2 : V3 := body2.physics.velocity -
        ⟨impulse * normalX * body2.physics.invMass,
         impulse * normalY * body2.physics.invMass,
         impulse * normalZ * body2.physics.invMass⟩
      ({ body1a with physics := { body1a.physics with velocity := v1 } },
       { body2a with physics := { body2a.physics with velocity := v2 } })
  else (body1, body2)

/-- `CPUPhysicsSystem::integratePhysics` (CPUPhysicsSystem.cpp:185-207):
static bodies are skipped entirely; otherwise gravity, position
integration and the 0.999 damping. -/
def integratePhysics (gravity : V3) (deltaTime : ℚ)
    (body : RigidBodyComponent) : RigidBodyComponent :=
  if body.physics.isStatic then body
  else
    let vel :=
      if body.physics.useGravity && decide (0 < body.physics.invMass) then
        body.physics.velocity + deltaTime • gravity
      else body.physics.velocity
    let pos := body.transform.position + deltaTime • vel
    { body with
        transform := { body.transform with position := pos },
        physics := { body.physics with velocity := (999/1000 : ℚ) • vel } }

/-- One iteration of the inner loop of `detectAndResolveCollisions`
(CPUPhysicsSystem.cpp:211-231) for the pair `(body1, body2)`: the layer
filter runs first, then the collider checks, then the AABB test; only a
surviving pair is resolved, producing the contact `(id1, id2)`. -/
def processPair (layers : LayerMap) (body1 body2 : RigidBodyComponent) :
    RigidBodyComponent × RigidBodyComponent × List (ℕ × ℕ) :=
  if !canLayersInteract layers body1.layer body2.layer then (body1, body2, [])
  else if !body1.hasCollider || !body2.hasCollider ||
          !body1.collider.enabled || !body2.collider.enabled then
    (body1, body2, [])
  else if checkBoxBoxCollision body1 body2 then
    let (body1a, body2a) := resolveCollision body1 body2
    (body1a, body2a, [(body1.entityId, body2.entityId)])
  else (body1, body2, [])

/-- The inner loop `for it2 = next(it1) .. end` of
`detectAndResolveCollisions`, threading the in-place mutations of
`body1` and of the remaining bodies. -/
def innerLoop (layers : LayerMap) (body1 : RigidBodyComponent) :
    List RigidBodyComponent →
      RigidBodyComponent × List RigidBodyComponent × List (ℕ × ℕ)
  | [] => (body1, [], [])
  | body2 :: rest =>
      let (body1a, body2a, produced) := processPair layers body1 body2
      let (body1b, rest1, contacts) := innerLoop layers body1a rest
      (body1b, body2a :: rest1, produced ++ contacts)

/-- The outer loop `for it1 = begin .. end` of
`detectAndResolveCollisions`; the fuel argument is the number of outer
iterations, which equals the (invariant) number of stored bodies. -/
def outerLoop (layers : LayerMap) :
    ℕ → List RigidBodyComponent → List RigidBodyComponent × List (ℕ × ℕ)
  | 0, bodies => (bodies, [])
  | _ + 1, [] => ([], [])
  | fuel + 1, body1 :: rest =>
      let (body1a, rest1, contacts) := innerLoop layers body1 rest
      let (rest2, contacts1) := outerLoop layers fuel rest1
      (body1a :: rest2, contacts ++ contacts1)

/-- `CPUPhysicsSystem::detectAndResolveCollisions`
(CPUPhysicsSystem.cpp:209-232), returning the updated body list together
with the list of entity-id pairs for which a contact was produced and
resolved. -/
def detectAndResolveCollisions (layers : LayerMap)
    (bodies : List RigidBodyComponent) :
    List RigidBodyComponent × List (ℕ × ℕ) :=
  outerLoop layers bodies.length bodies

end cpsys

namespace ecsf

open ieee

theorem getAssoc_setAssoc {α : Type} (l : List (ℕ × α)) (k : ℕ) (v : α) :
    getAssoc (setAssoc l k v) k = some v := by
  induction l with
  | nil => simp [setAssoc, getAssoc]
  | cons hd tl ih =>
      obtain ⟨k1, v1⟩ := hd
      by_cases h : k1 = k
      · simp [setAssoc, getAssoc, h]
      · simp [setAssoc, getAssoc, h, ih]

/-- C2 (code_bug record): evaluating the cited factory at the failing
input `mass = 0`. `RigidBodyEntityFactory::createRigidBody`
(factories/entities/RigidbodyEntityFactory.cpp:9-24) accepts `mass = 0`
(`mass >= 0` passes validation) and builds the physics component with
`createDynamicPhysics(0)`, so `calculateInverseMass` sets `invMass = 0`
while `isStatic` stays `false`: the created body has `invMass == 0` but
`isStatic == false`, contradicting the claimed invariant
`invMass == 0 ⟺ isStatic` and the claimed `isStatic = true` outcome. -/
theorem createRigidBody_mass_zero_violates_static_invariant :
    ((createRigidBody ECSManager.init (.fin 0) (.fin 0) (.fin 0)
        (.fin 1) (.fin 1) (.fin 1) (.fin 0) 0).1 = 1) ∧
    ((getPhysicsComponent
        (createRigidBody ECSManager.init (.fin 0) (.fin 0) (.fin 0)
          (.fin 1) (.fin 1) (.fin 1) (.fin 0) 0).2 1).map
        (fun p => (p.isStatic, p.invMass)) = some (false, .fin 0)) := by
  decide

/-- C3 (counterexample): a non-finite position is accepted.
`createRigidBody` with `x = NaN` (all other parameters valid) returns
entity id 1 — not the invalid id 0 — and mutates the store (the entity
list becomes `[1]`), because `validateRigidBodyParameters` casts the
position arguments to void and never checks finiteness. -/
theorem createRigidBody_nan_position_accepted :
    ((createRigidBody ECSManager.init .nan (.fin 0) (.fin 0)
        (.fin 1) (.fin 1) (.fin 1) (.fin 1) 0).1 = 1) ∧
    ((createRigidBody ECSManager.init .nan (.fin 0) (.fin 0)
        (.fin 1) (.fin 1) (.fin 1) (.fin 1) 0).2.entities = [1]) := by
  decide

/-- C3 (amended): `createRigidBody` returns the sentinel id 0 and leaves
the store untouched whenever the IEEE tests `width > 0`, `height > 0`,
`depth > 0`, `mass >= 0` do not all pass (which covers non-positive or
NaN dimensions and negative or NaN mass, but accepts any position and
accepts `+∞` dimensions or mass). Validation precedes entity creation,
so nothing partial is created on failure. -/
theorem createRigidBody_invalid_params_returns_zero
    (m : ECSManager) (x y z width height depth mass : FVal) (layer : ℕ)
    (h : validateRigidBodyParameters x y z width height depth mass = false) :
    createRigidBody m x y z width height depth mass layer = (0, m) := by
  simp [createRigidBody, h]

/-- C3 (witness): `mass = -1` fails validation, and the theorem applied
there yields the invalid id 0 with the store returned unchanged. -/
theorem createRigidBody_invalid_params_returns_zero_witness :
    (validateRigidBodyParameters (.fin 0) (.fin 0) (.fin 0)
      (.fin 1) (.fin 1) (.fin 1) (.fin (-1)) = false) ∧
    (createRigidBody ECSManager.init (.fin 0) (.fin 0) (.fin 0)
      (.fin 1) (.fin 1) (.fin 1) (.fin (-1)) 0 = (0, ECSManager.init)) :=
  ⟨by decide,
   createRigidBody_invalid_params_returns_zero ECSManager.init
     (.fin 0) (.fin 0) (.fin 0) (.fin 1) (.fin 1) (.fin 1) (.fin (-1)) 0
     (by decide)⟩

/-- A store holding one live entity (id 1) with a physics component
already attached, used to exercise `addComponent` on a duplicate. -/
def managerWithPhysics : ECSManager :=
  (addPhysicsComponent (createEntity ECSManager.init).2 1 createStaticPhysics).2

/-- C7 (counterexample): `ECSManager::addComponent` silently overwrites.
With entity 1 live and already holding `createStaticPhysics`, adding a
second physics component returns `true` (the claim requires `false`)
and the stored value becomes the new component (the claim requires the
existing value to stay unchanged); the two components differ. -/
theorem addComponent_overwrites_existing :
    ((addPhysicsComponent managerWithPhysics 1
        (createDynamicPhysics (.fin 2))).1 = true) ∧
    (getPhysicsComponent
        (addPhysicsComponent managerWithPhysics 1
          (createDynamicPhysics (.fin 2))).2 1 =
      some (createDynamicPhysics (.fin 2))) ∧
    (createDynamicPhysics (.fin 2) ≠ createStaticPhysics) := by
  refine ⟨by decide, rfl, fun h => ?_⟩
  exact absurd (congrArg PhysicsComponent.isStatic h) (by decide)

/-- C7 (amended): for each component type, `addComponent(id, value)`
returns `false` exactly when `id` is not a live entity (in which case
the store is unchanged); for a live entity it returns `true` and the
table afterwards maps `id` to the new value — overwriting any component
of that type that already existed. -/
theorem addComponent_false_iff_unknown_entity
    (m : ECSManager) (entityId : ℕ) (t : TransformComponent)
    (p : PhysicsComponent) (c : BoxColliderComponent) :
    ((addTransformComponent m entityId t).1 = isEntityValid m entityId) ∧
    ((addPhysicsComponent m entityId p).1 = isEntityValid m entityId) ∧
    ((addBoxColliderComponent m entityId c).1 = isEntityValid m entityId) ∧
    (isEntityValid m entityId = true →
      getAssoc (addTransformComponent m entityId t).2.transformComponents
          entityId = some t ∧
      getAssoc (addPhysicsComponent m entityId p).2.physicsComponents
          entityId = some p ∧
      getAssoc (addBoxColliderComponent m entityId c).2.boxColliderComponents
          entityId = some c) ∧
    (isEntityValid m entityId = false →
      (addTransformComponent m entityId t).2 = m ∧
      (addPhysicsComponent m entityId p).2 = m ∧
      (addBoxColliderComponent m entityId c).2 = m) := by
  by_cases h : isEntityValid m entityId
  · refine ⟨?_, ?_, ?_, ?_, ?_⟩ <;>
      simp [addTransformComponent, addPhysicsComponent,
        addBoxColliderComponent, h, getAssoc_setAssoc]
  · simp only [Bool.not_eq_true] at h
    refine ⟨?_, ?_, ?_, ?_, ?_⟩ <;>
      simp [addTransformComponent, addPhysicsComponent,
        addBoxColliderComponent, h]

/-- C7 (witness): instantiating the amended theorem at the store with
entity 1 live: adding a physics component to entity 1 reports `true`
and stores the new value. -/
theorem addComponent_false_iff_unknown_entity_witness :
    (isEntityValid managerWithPhysics 1 = true) ∧
    (getAssoc (addPhysicsComponent managerWithPhysics 1
        (createDynamicPhysics (.fin 2))).2.physicsComponents 1 =
      some (createDynamicPhysics (.fin 2))) :=
  ⟨by decide,
   ((addComponent_false_iff_unknown_entity managerWithPhysics 1
       (createTransformComponent (.fin 0) (.fin 0) (.fin 0)
         (.fin 1) (.fin 1) (.fin 1))
       (createDynamicPhysics (.fin 2))
       (createBoxCollider (.fin 1) (.fin 1) (.fin 1))).2.2.2.1
     (by decide)).2.1⟩

end ecsf

namespace colsys

/-- The default gravity of the collision system
(CpuPhysicsCollisionSystem.h:69-73). -/
def gravityDefault : V3 := ⟨0, -981/100, 0⟩

/-- A static body's physics component: zero mass and inverse mass. -/
def staticGroundPhysics : PhysicsComponent :=
  { velocity := ⟨0, 0, 0⟩, angularVelocity := ⟨0, 0, 0⟩,
    mass := 0, invMass := 0, restitution := 1, friction := 3/10,
    isStatic := true, useGravity := false }

/-- A unit-inverse-mass dynamic body falling at speed 5, restitution 1. -/
def fallingBodyPhysics : PhysicsComponent :=
  { velocity := ⟨0, -5, 0⟩, angularVelocity := ⟨0, 0, 0⟩,
    mass := 1, invMass := 1, restitution := 1, friction := 3/10,
    isStatic := false, useGravity := true }

/-- C9: an entity whose physics component has `isStatic = true` is left
untouched by a full integration step of a tick: `integratePhysics`
(gravity and damping) returns its physics component — hence all three
velocity components — unchanged, and `updateTransformFromPhysics`
(the position update) returns its transform — hence all three position
components — unchanged; the same holds for the fused
`CPUPhysicsSystem::integratePhysics` variant. -/
theorem static_entity_unchanged_by_integration
    (gravity : V3) (deltaTime : ℚ) (physics : PhysicsComponent)
    (transform : TransformComponent) (body : cpsys.RigidBodyComponent)
    (h : physics.isStatic = true) (hbody : body.physics.isStatic = true) :
    integratePhysics gravity deltaTime physics = physics ∧
    updateTransformFromPhysics deltaTime transform physics = transform ∧
    cpsys.integratePhysics gravity deltaTime body = body := by
  refine ⟨?_, ?_, ?_⟩
  · simp [integratePhysics, h]
  · simp [updateTransformFromPhysics, h]
  · simp [cpsys.integratePhysics, hbody]

/-- C9 (witness): the static ground body is unchanged by integration at
the default gravity and a 1/60 s step. -/
theorem static_entity_unchanged_by_integration_witness :
    staticGroundPhysics.isStatic = true ∧
    integratePhysics gravityDefault (1/60) staticGroundPhysics =
      staticGroundPhysics :=
  ⟨rfl,
   (static_entity_unchanged_by_integration gravityDefault (1/60)
      staticGroundPhysics
      ⟨⟨0, 0, 0⟩, ⟨1, 0, 0, 0⟩, ⟨1, 1, 1⟩⟩
      ⟨1, ⟨⟨0, 0, 0⟩, ⟨1, 0, 0, 0⟩, ⟨1, 1, 1⟩⟩, staticGroundPhysics,
       ⟨1, 1, 1, true⟩, 0, true⟩
      rfl rfl).1⟩

/-- The impulse magnitude `J` computed at
cpu_physics_collision_system.cpp:366-367:
`-(1 + min(restitutionA, restitutionB)) * velAlongNormal`, divided by
`invMassA + invMassB`. -/
def impulseMagnitude (physicsA physicsB : PhysicsComponent)
    (normal : V3) : ℚ :=
  -(1 + min physicsA.restitution physicsB.restitution) *
      velAlongNormal physicsA physicsB normal /
    (physicsA.invMass + physicsB.invMass)

/-- Behaviour of the exact-rational model of `applyCollisionImpulse`
under the invariant that a static body has zero inverse mass: both
velocities are unchanged when `velAlongNormal ≥ 0` (at exactly 0 the
computed impulse is 0), and otherwise A's velocity gains
`J*invMassA*normal` and B's loses `J*invMassB*normal`, with
`J = -(1+min(restitutionA,restitutionB))*velAlongNormal/totalInvMass`. -/
theorem applyCollisionImpulse_exact
    (physicsA physicsB : PhysicsComponent) (normal : V3)
    (hA : physicsA.isStatic = true → physicsA.invMass = 0)
    (hB : physicsB.isStatic = true → physicsB.invMass = 0) :
    (0 ≤ velAlongNormal physicsA physicsB normal →
      applyCollisionImpulse physicsA physicsB normal =
        (physicsA, physicsB)) ∧
    (velAlongNormal physicsA physicsB normal < 0 →
      (applyCollisionImpulse physicsA physicsB normal).1.velocity =
          physicsA.velocity +
            (impulseMagnitude physicsA physicsB normal *
              physicsA.invMass) • normal ∧
      (applyCollisionImpulse physicsA physicsB normal).2.velocity =
          physicsB.velocity -
            (impulseMagnitude physicsA physicsB normal *
              physicsB.invMass) • normal) := by
  constructor
  · intro hv
    rcases lt_or_eq_of_le hv with hpos | hzero
    · simp [applyCollisionImpulse, hpos]
    · have hv0 : velAlongNormal physicsA physicsB normal = 0 := hzero.symm
      simp only [applyCollisionImpulse, hv0, lt_irrefl, if_false,
        mul_zero, zero_div, zero_mul]
      rw [Prod.mk.injEq]
      constructor
      · by_cases hsA : physicsA.isStatic = true
        · rw [if_pos hsA]
        · rw [if_neg hsA, V3.add_zero_smul]
      · by_cases hsB : physicsB.isStatic = true
        · rw [if_pos hsB]
        · rw [if_neg hsB, V3.sub_zero_smul]
  · intro hv
    have hnot : ¬ (0 < velAlongNormal physicsA physicsB normal) :=
      not_lt.mpr hv.le
    simp only [applyCollisionImpulse, hnot, if_false]
    constructor
    · by_cases hsA : physicsA.isStatic
      · simp [hsA, hA hsA, V3.add_zero_smul]
      · simp [hsA, impulseMagnitude]
    · by_cases hsB : physicsB.isStatic
      · simp [hsB, hB hsB, V3.sub_zero_smul]
      · simp [hsB, impulseMagnitude]

theorem velAlongNormal_bounce_scenario :
    velAlongNormal staticGroundPhysics fallingBodyPhysics ⟨0, -1, 0⟩ =
      -5 := by
  norm_num [velAlongNormal, V3.dot, V3.sub_def, staticGroundPhysics,
    fallingBodyPhysics]

/-- C6: under the invariants that a static body has zero inverse mass
and inverse masses are nonnegative, `separateEntities` skips the
correction when `totalInvMass = 0` (neither position changes), and
otherwise moves A's position by `+ penetration * 0.5 * (invMassA/total)`
and B's by `− penetration * 0.5 * (invMassB/total)` along the normal, so
a body with zero inverse mass does not move. -/
theorem separateEntities_spec
    (transformA transformB : TransformComponent)
    (physicsA physicsB : PhysicsComponent) (normal : V3) (depth : ℚ)
    (hA : physicsA.isStatic = true → physicsA.invMass = 0)
    (hB : physicsB.isStatic = true → physicsB.invMass = 0)
    (h0A : 0 ≤ physicsA.invMass) (h0B : 0 ≤ physicsB.invMass) :
    (physicsA.invMass + physicsB.invMass = 0 →
      separateEntities transformA transformB physicsA physicsB normal
        depth = (transformA, transformB)) ∧
    (0 < physicsA.invMass + physicsB.invMass →
      ((separateEntities transformA transformB physicsA physicsB normal
          depth).1.position =
        transformA.position +
          (depth * (1/2) *
            (physicsA.invMass / (physicsA.invMass + physicsB.invMass))) •
            normal ∧
       (separateEntities transformA transformB physicsA physicsB normal
          depth).2.position =
        transformB.position -
          (depth * (1/2) *
            (physicsB.invMass / (physicsA.invMass + physicsB.invMass))) •
            normal ∧
       (physicsA.invMass = 0 →
         (separateEntities transformA transformB physicsA physicsB normal
            depth).1 = transformA) ∧
       (physicsB.invMass = 0 →
         (separateEntities transformA transformB physicsA physicsB normal
            depth).2 = transformB))) := by
  constructor
  · intro h0
    simp [separateEntities, h0]
  · intro hpos
    have hne : ¬ (physicsA.invMass + physicsB.invMass ≤ 0) :=
      not_le.mpr hpos
    have hscaleA : physicsA.invMass / (physicsA.invMass + physicsB.invMass) *
        depth * (1/2) =
        depth * (1/2) *
          (physicsA.invMass / (physicsA.invMass + physicsB.invMass)) := by
      ring
    have hscaleB : physicsB.invMass / (physicsA.invMass + physicsB.invMass) *
        depth * (1/2) =
        depth * (1/2) *
          (physicsB.invMass / (physicsA.invMass + physicsB.invMass)) := by
      ring
    have key : separateEntities transformA transformB physicsA physicsB
        normal depth =
        (if physicsA.isStatic = true then transformA
         else { transformA with position := transformA.position +
                  (physicsA.invMass / (physicsA.invMass + physicsB.invMass) *
                    depth * (1/2)) • normal },
         if physicsB.isStatic = true then transformB
         else { transformB with position := transformB.position -
                  (physicsB.invMass / (physicsA.invMass + physicsB.invMass) *
                    depth * (1/2)) • normal }) := by
      simp only [separateEntities, if_neg hne]
    refine ⟨?_, ?_, ?_, ?_⟩
    · rw [key]
      by_cases hsA : physicsA.isStatic = true
      · rw [if_pos hsA, hA hsA]
        simp [V3.add_zero_smul]
      · rw [if_neg hsA]
        show transformA.position +
            (physicsA.invMass / (physicsA.invMass + physicsB.invMass) *
              depth * (1/2)) • normal = _
        rw [hscaleA]
    · rw [key]
      by_cases hsB : physicsB.isStatic = true
      · rw [if_pos hsB, hB hsB]
        simp [V3.sub_zero_smul]
      · rw [if_neg hsB]
        show transformB.position -
            (physicsB.invMass / (physicsA.invMass + physicsB.invMass) *
              depth * (1/2)) • normal = _
        rw [hscaleB]
    · intro hzA
      rw [key]
      by_cases hsA : physicsA.isStatic = true
      · rw [if_pos hsA]
      · rw [if_neg hsA, hzA]
        simp [V3.add_zero_smul]
    · intro hzB
      rw [key]
      by_cases hsB : physicsB.isStatic = true
      · rw [if_pos hsB]
      · rw [if_neg hsB, hzB]
        simp [V3.sub_zero_smul]

/-- C6 (witness): ground (invMass 0) against the falling body
(invMass 1), penetration 1/2, normal (0,−1,0): the correction runs
(total = 1 > 0) and the static ground transform is returned unchanged. -/
theorem separateEntities_spec_witness :
    (0 : ℚ) < staticGroundPhysics.invMass + fallingBodyPhysics.invMass ∧
    (separateEntities
        ⟨⟨0, -1, 0⟩, ⟨1, 0, 0, 0⟩, ⟨1, 1, 1⟩⟩
        ⟨⟨0, 0, 0⟩, ⟨1, 0, 0, 0⟩, ⟨1, 1, 1⟩⟩
        staticGroundPhysics fallingBodyPhysics ⟨0, -1, 0⟩ (1/2)).1 =
      ⟨⟨0, -1, 0⟩, ⟨1, 0, 0, 0⟩, ⟨1, 1, 1⟩⟩ := by
  have h := (separateEntities_spec
    ⟨⟨0, -1, 0⟩, ⟨1, 0, 0, 0⟩, ⟨1, 1, 1⟩⟩
    ⟨⟨0, 0, 0⟩, ⟨1, 0, 0, 0⟩, ⟨1, 1, 1⟩⟩
    staticGroundPhysics fallingBodyPhysics ⟨0, -1, 0⟩ (1/2)
    (fun _ => rfl) (fun h => by simp [fallingBodyPhysics] at h)
    (by norm_num [staticGroundPhysics])
    (by norm_num [fallingBodyPhysics]))
  have hpos : (0 : ℚ) <
      staticGroundPhysics.invMass + fallingBodyPhysics.invMass := by
    norm_num [staticGroundPhysics, fallingBodyPhysics]
  exact ⟨hpos, ((h.2 hpos).2.2.1 rfl)⟩

/-- C4: `checkBoxBoxCollision` produces a contact exactly when the
per-axis penetration `(halfA_i + halfB_i) - |distance_i|` is positive on
all three axes; a produced contact's penetration depth is the minimum
per-axis penetration (hence positive), its contact point is the midpoint
of the two centers, and its normal is supported on a single
minimum-penetration axis `k`, with value +1 there when A's center
exceeds B's on that axis and −1 otherwise. -/
theorem checkBoxBoxCollision_spec
    (transformA : TransformComponent) (colliderA : BoxColliderComponent)
    (transformB : TransformComponent) (colliderB : BoxColliderComponent) :
    ((checkBoxBoxCollision transformA colliderA transformB colliderB).isSome ↔
      (0 < penAxis transformA colliderA transformB colliderB 0 ∧
       0 < penAxis transformA colliderA transformB colliderB 1 ∧
       0 < penAxis transformA colliderA transformB colliderB 2)) ∧
    (∀ depth normal point,
      checkBoxBoxCollision transformA colliderA transformB colliderB =
        some (depth, normal, point) →
      depth = min (min (penAxis transformA colliderA transformB colliderB 0)
                       (penAxis transformA colliderA transformB colliderB 1))
                  (penAxis transformA colliderA transformB colliderB 2) ∧
      0 < depth ∧
      point = ⟨(transformA.position.x + transformB.position.x) * (1/2),
               (transformA.position.y + transformB.position.y) * (1/2),
               (transformA.position.z + transformB.position.z) * (1/2)⟩ ∧
      ∃ k, k < 3 ∧
        penAxis transformA colliderA transformB colliderB k = depth ∧
        normal = V3.single k
          (if transformB.position.get k < transformA.position.get k
           then 1 else -1)) := by
  by_cases hsep : penAxis transformA colliderA transformB colliderB 0 ≤ 0 ∨
      penAxis transformA colliderA transformB colliderB 1 ≤ 0 ∨
      penAxis transformA colliderA transformB colliderB 2 ≤ 0
  · constructor
    · simp only [checkBoxBoxCollision, if_pos hsep, Option.isSome_none,
        Bool.false_eq_true, false_iff]
      rcases hsep with h | h | h
      · exact fun hc => absurd hc.1 (not_lt.mpr h)
      · exact fun hc => absurd hc.2.1 (not_lt.mpr h)
      · exact fun hc => absurd hc.2.2 (not_lt.mpr h)
    · intro depth normal point h
      rw [checkBoxBoxCollision] at h
      rw [if_pos hsep] at h
      exact absurd h (by simp)
  · have hpos := hsep
    push_neg at hpos
    obtain ⟨h0, h1, h2⟩ := hpos
    constructor
    · simp only [checkBoxBoxCollision, if_neg hsep, Option.isSome_some,
        true_iff]
      exact ⟨h0, h1, h2⟩
    · intro depth normal point h
      simp only [checkBoxBoxCollision, if_neg hsep, Option.some.injEq,
        Prod.mk.injEq] at h
      obtain ⟨hd, hn, hp⟩ := h
      by_cases h10 : penAxis transformA colliderA transformB colliderB 1 <
          penAxis transformA colliderA transformB colliderB 0
      · rw [if_pos h10] at hd hn
        by_cases h21 : penAxis transformA colliderA transformB colliderB 2 <
            penAxis transformA colliderA transformB colliderB 1
        · rw [if_pos h21] at hd hn
          refine ⟨?_, ?_, hp.symm, 2, by norm_num, hd, hn.symm⟩
          · rw [← hd, min_eq_right h10.le, min_eq_right h21.le]
          · rw [← hd]; exact h2
        · rw [if_neg h21] at hd hn
          refine ⟨?_, ?_, hp.symm, 1, by norm_num, hd, hn.symm⟩
          · rw [← hd, min_eq_right h10.le, min_eq_left (not_lt.mp h21)]
          · rw [← hd]; exact h1
      · rw [if_neg h10] at hd hn
        by_cases h20 : penAxis transformA colliderA transformB colliderB 2 <
            penAxis transformA colliderA transformB colliderB 0
        · rw [if_pos h20] at hd hn
          refine ⟨?_, ?_, hp.symm, 2, by norm_num, hd, hn.symm⟩
          · rw [← hd, min_eq_left (not_lt.mp h10), min_eq_right h20.le]
          · rw [← hd]; exact h2
        · rw [if_neg h20] at hd hn
          refine ⟨?_, ?_, hp.symm, 0, by norm_num, hd, hn.symm⟩
          · rw [← hd, min_eq_left (not_lt.mp h10), min_eq_left (not_lt.mp h20)]
          · rw [← hd]; exact h0

/-- A 2×2×2 box collider (half-extent 1 on every axis at unit scale). -/
def boxTwo : BoxColliderComponent := ⟨2, 2, 2, true⟩

/-- A transform at the given position, with identity rotation and unit
scale. -/
def transformAt (x y z : ℚ) : TransformComponent :=
  ⟨⟨x, y, z⟩, ⟨1, 0, 0, 0⟩, ⟨1, 1, 1⟩⟩

/-- C4 (witness): scenario A of the spec — two boxes of half-extent 1,
centers 3/2 apart on X: a contact is produced with depth 1/2 (the X-axis
penetration `2 − 3/2`), normal (+1,0,0) and midpoint contact point, and
the theorem applied to this run identifies 1/2 as the minimum per-axis
penetration. -/
theorem checkBoxBoxCollision_spec_witness :
    checkBoxBoxCollision (transformAt (3/2) 0 0) boxTwo
        (transformAt 0 0 0) boxTwo =
      some (1/2, ⟨1, 0, 0⟩, ⟨3/4, 0, 0⟩) ∧
    (1/2 : ℚ) =
      min (min (penAxis (transformAt (3/2) 0 0) boxTwo
                  (transformAt 0 0 0) boxTwo 0)
               (penAxis (transformAt (3/2) 0 0) boxTwo
                  (transformAt 0 0 0) boxTwo 1))
          (penAxis (transformAt (3/2) 0 0) boxTwo
             (transformAt 0 0 0) boxTwo 2) := by
  have habs : |(3/2 : ℚ)| = 3/2 := by
    rw [abs_of_nonneg] ; norm_num
  have heq : checkBoxBoxCollision (transformAt (3/2) 0 0) boxTwo
      (transformAt 0 0 0) boxTwo =
      some (1/2, ⟨1, 0, 0⟩, ⟨3/4, 0, 0⟩) := by
    norm_num [checkBoxBoxCollision, penAxis, V3.single, transformAt,
      boxTwo, habs]
  exact ⟨heq,
    ((checkBoxBoxCollision_spec (transformAt (3/2) 0 0) boxTwo
        (transformAt 0 0 0) boxTwo).2 (1/2) ⟨1, 0, 0⟩ ⟨3/4, 0, 0⟩ heq).1⟩

theorem mem_loopPairs_iff {l : List ℕ} {a b : ℕ} :
    (a, b) ∈ loopPairs l ↔ ∃ l1 l2 l3, l = l1 ++ a :: (l2 ++ b :: l3) := by
  induction l with
  | nil =>
      simp only [loopPairs, List.not_mem_nil, false_iff, not_exists]
      intro l1 l2 l3 h
      exact absurd h.symm (List.append_ne_nil_of_right_ne_nil l1
        (List.cons_ne_nil a (l2 ++ b :: l3)))
  | cons hd tl ih =>
      simp only [loopPairs, List.mem_append, List.mem_map, ih]
      constructor
      · rintro (⟨x, hx, hxy⟩ | ⟨l1, l2, l3, rfl⟩)
        · injection hxy with h1 h2
          subst h1; subst h2
          obtain ⟨s, t, rfl⟩ := List.append_of_mem hx
          exact ⟨[], s, t, by simp⟩
        · exact ⟨hd :: l1, l2, l3, rfl⟩
      · rintro ⟨l1, l2, l3, h⟩
        cases l1 with
        | nil =>
            simp only [List.nil_append, List.cons.injEq] at h
            obtain ⟨rfl, rfl⟩ := h
            exact Or.inl ⟨b, by simp, rfl⟩
        | cons c l1 =>
            simp only [List.cons_append, List.cons.injEq] at h
            obtain ⟨rfl, rfl⟩ := h
            exact Or.inr ⟨l1, l2, l3, rfl⟩

theorem broadPhaseAccepts_iff (st : Store) (a b : ℕ) :
    broadPhaseAccepts st a b = true ↔
      ∃ tA tB cA cB,
        st.transforms a = some tA ∧ st.transforms b = some tB ∧
        st.colliders a = some cA ∧ st.colliders b = some cB ∧
        aabbOverlap (calculateAABB tA cA) (calculateAABB tB cB) = true := by
  cases hta : st.transforms a <;> cases htb : st.transforms b <;>
    cases hca : st.colliders a <;> cases hcb : st.colliders b <;>
      simp [broadPhaseAccepts, hta, htb, hca, hcb]

/-- C8 (amended): the broad-phase candidate set is exactly the set of
ordered pairs `(a, b)` with `a` listed before `b` that both carry a
transform and a collider and whose world AABBs overlap — the physics
components are never consulted, so pairs of two static entities are
candidates like any others. -/
theorem broadPhaseDetection_mem_iff (st : Store) (entities : List ℕ)
    (a b : ℕ) :
    (a, b) ∈ broadPhaseDetection st entities ↔
      ((∃ l1 l2 l3, entities = l1 ++ a :: (l2 ++ b :: l3)) ∧
       ∃ tA tB cA cB,
         st.transforms a = some tA ∧ st.transforms b = some tB ∧
         st.colliders a = some cA ∧ st.colliders b = some cB ∧
         aabbOverlap (calculateAABB tA cA) (calculateAABB tB cB) = true) := by
  rw [broadPhaseDetection, List.mem_filter, mem_loopPairs_iff,
    ← broadPhaseAccepts_iff st a b]

/-- A store holding two static, AABB-overlapping unit boxes: entity 1 at
the origin and entity 2 at (1/2, 0, 0), both with `invMass = 0` and
`isStatic = true`. -/
def staticPairStore : Store :=
  { transforms := fun n =>
      if n = 1 then some (transformAt 0 0 0)
      else if n = 2 then some (transformAt (1/2) 0 0) else none,
    physics := fun n =>
      if n = 1 ∨ n = 2 then some staticGroundPhysics else none,
    colliders := fun n =>
      if n = 1 ∨ n = 2 then some ⟨1, 1, 1, true⟩ else none }

/-- C8 (counterexample): with both entities static and overlapping, the
pair (1, 2) is in the broad-phase candidate set — static-static pairs
are not skipped by `broadPhaseDetection`. -/
theorem static_static_pair_in_broad_phase :
    (1, 2) ∈ broadPhaseDetection staticPairStore [1, 2] ∧
    staticPairStore.physics 1 = some staticGroundPhysics ∧
    staticPairStore.physics 2 = some staticGroundPhysics ∧
    staticGroundPhysics.isStatic = true := by
  have hacc : broadPhaseAccepts staticPairStore 1 2 = true := by
    norm_num [broadPhaseAccepts, staticPairStore, transformAt,
      calculateAABB, aabbOverlap]
  refine ⟨?_, by simp [staticPairStore], by simp [staticPairStore], rfl⟩
  simp [broadPhaseDetection, loopPairs, List.filter_cons, hacc]

/-- C10 (counterexample): a contact between two static bodies is
produced by `detectCollisions` (broad phase keeps static-static pairs,
`canEntitiesCollide` has no callback, narrow phase only checks
`enabled`), its relative normal velocity is 0 so the `velAlongNormal > 0`
early return does not fire, and at the division point of
`applyCollisionImpulse` the divisor `invMassA + invMassB` is 0. -/
theorem static_static_contact_reaches_zero_divisor :
    (⟨1, 2, 1/2, ⟨-1, 0, 0⟩, ⟨1/4, 0, 0⟩⟩ : CollisionPair) ∈
      detectCollisions none true staticPairStore [1, 2] ∧
    staticPairStore.physics 1 = some staticGroundPhysics ∧
    staticPairStore.physics 2 = some staticGroundPhysics ∧
    staticGroundPhysics.invMass + staticGroundPhysics.invMass = 0 ∧
    ¬ (0 < velAlongNormal staticGroundPhysics staticGroundPhysics
        ⟨-1, 0, 0⟩) := by
  have habs : |(-(1/2) : ℚ)| = 1/2 := by
    rw [abs_neg, abs_of_nonneg] ; norm_num
  have hnp : narrowPhaseDetection staticPairStore 1 2 =
      some ⟨1, 2, 1/2, ⟨-1, 0, 0⟩, ⟨1/4, 0, 0⟩⟩ := by
    norm_num [narrowPhaseDetection, staticPairStore, checkBoxBoxCollision,
      penAxis, transformAt, V3.single, habs]
  have hacc : broadPhaseAccepts staticPairStore 1 2 = true := by
    norm_num [broadPhaseAccepts, staticPairStore, transformAt,
      calculateAABB, aabbOverlap]
  have hbp : broadPhaseDetection staticPairStore [1, 2] = [(1, 2)] := by
    simp [broadPhaseDetection, loopPairs, List.filter_cons, hacc]
  refine ⟨?_, by simp [staticPairStore], by simp [staticPairStore],
    by norm_num [staticGroundPhysics], ?_⟩
  · simp [detectCollisions, hbp, canEntitiesCollide, List.filterMap_cons,
      hnp]
  · norm_num [velAlongNormal, V3.dot, V3.sub_def, staticGroundPhysics]

/-- C10 (amended): for every contact produced by `detectCollisions`, if
inverse masses are nonnegative and at least one of the two bodies is
dynamic (`invMass > 0`) then the impulse divisor `invMassA + invMassB`
is positive, so the division is well-defined; static-static contacts do
reach the division (see the counterexample) with divisor 0, but for
them both velocity writes are skipped by the `isStatic` guards, so
`applyCollisionImpulse` leaves both components unchanged. -/
theorem contact_impulse_divisor (canCb : Option (ℕ → ℕ → Bool))
    (broadPhaseEnabled : Bool) (st : Store) (entities : List ℕ)
    (c : CollisionPair) (pA pB : PhysicsComponent)
    (hmem : c ∈ detectCollisions canCb broadPhaseEnabled st entities)
    (hA : st.physics c.entityA = some pA)
    (hB : st.physics c.entityB = some pB)
    (h0A : 0 ≤ pA.invMass) (h0B : 0 ≤ pB.invMass) :
    (0 < pA.invMass ∨ 0 < pB.invMass → 0 < pA.invMass + pB.invMass) ∧
    (pA.isStatic = true → pB.isStatic = true →
      applyCollisionImpulse pA pB c.normal = (pA, pB)) := by
  constructor
  · rintro (h | h) <;> linarith
  · intro hsA hsB
    simp [applyCollisionImpulse, hsA, hsB]

/-- A store holding the dynamic falling body (entity 1, at (3/2,0,0))
and the static ground (entity 2, at the origin), overlapping boxes of
half-extent 1. -/
def mixedPairStore : Store :=
  { transforms := fun n =>
      if n = 1 then some (transformAt (3/2) 0 0)
      else if n = 2 then some (transformAt 0 0 0) else none,
    physics := fun n =>
      if n = 1 then some fallingBodyPhysics
      else if n = 2 then some staticGroundPhysics else none,
    colliders := fun n =>
      if n = 1 ∨ n = 2 then some boxTwo else none }

/-- C10 (witness): a produced contact between the dynamic body (entity
1, `invMass = 1`) and the static ground (entity 2): the amended theorem
applied to it gives a positive divisor. -/
theorem contact_impulse_divisor_witness :
    (⟨1, 2, 1/2, ⟨1, 0, 0⟩, ⟨3/4, 0, 0⟩⟩ : CollisionPair) ∈
      detectCollisions none true mixedPairStore [1, 2] ∧
    (0 : ℚ) <
      fallingBodyPhysics.invMass + staticGroundPhysics.invMass := by
  have habs : |(3/2 : ℚ)| = 3/2 := by
    rw [abs_of_nonneg] ; norm_num
  have hnp : narrowPhaseDetection mixedPairStore 1 2 =
      some ⟨1, 2, 1/2, ⟨1, 0, 0⟩, ⟨3/4, 0, 0⟩⟩ := by
    norm_num [narrowPhaseDetection, mixedPairStore, checkBoxBoxCollision,
      penAxis, transformAt, boxTwo, V3.single, habs]
  have hacc : broadPhaseAccepts mixedPairStore 1 2 = true := by
    norm_num [broadPhaseAccepts, mixedPairStore, transformAt, boxTwo,
      calculateAABB, aabbOverlap]
  have hbp : broadPhaseDetection mixedPairStore [1, 2] = [(1, 2)] := by
    simp [broadPhaseDetection, loopPairs, List.filter_cons, hacc]
  have hmem : (⟨1, 2, 1/2, ⟨1, 0, 0⟩, ⟨3/4, 0, 0⟩⟩ : CollisionPair) ∈
      detectCollisions none true mixedPairStore [1, 2] := by
    simp [detectCollisions, hbp, canEntitiesCollide, List.filterMap_cons,
      hnp]
  refine ⟨hmem, ?_⟩
  exact (contact_impulse_divisor none true mixedPairStore [1, 2]
      ⟨1, 2, 1/2, ⟨1, 0, 0⟩, ⟨3/4, 0, 0⟩⟩
      fallingBodyPhysics staticGroundPhysics hmem
      (by simp [mixedPairStore]) (by simp [mixedPairStore])
      (by norm_num [fallingBodyPhysics])
      (by norm_num [staticGroundPhysics])).1
    (Or.inl (by norm_num [fallingBodyPhysics]))

end colsys

namespace colsysf

open ieee

/-- Componentwise IEEE subtraction of two float triples
(cpu_physics_collision_system.cpp:346-349). -/
def subV (a b : ecsf.FV3) : ecsf.FV3 :=
  ⟨fsub a.x b.x, fsub a.y b.y, fsub a.z b.z⟩

/-- IEEE-value model of the `velAlongNormal` accumulation
(cpu_physics_collision_system.cpp:351-355): starts from `0.0f` and adds
the three componentwise products in order. -/
def velAlongNormal (physicsA physicsB : ecsf.PhysicsComponent)
    (normal : ecsf.FV3) : FVal :=
  let rel := subV physicsA.velocity physicsB.velocity
  fadd (fadd (fadd (.fin 0) (fmul rel.x normal.x)) (fmul rel.y normal.y))
    (fmul rel.z normal.z)

/-- IEEE-value model of `CPUPhysicsCollisionSystem::applyCollisionImpulse`
(cpu_physics_collision_system.cpp:337-381), keeping the error paths of
the float arithmetic: in particular the unguarded division
`impulseMagnitude /= (invMassA + invMassB)` yields NaN for a 0/0 and
the NaN then propagates into any velocity write that is not skipped by
an `isStatic` guard. -/
def applyCollisionImpulse (physicsA physicsB : ecsf.PhysicsComponent)
    (normal : ecsf.FV3) : ecsf.PhysicsComponent × ecsf.PhysicsComponent :=
  let v := velAlongNormal physicsA physicsB normal
  if fgt v (.fin 0) then (physicsA, physicsB)
  else
    let restitution := fminStd physicsA.restitution physicsB.restitution
    let impulseMagnitude :=
      fdiv (fmul (fneg (fadd (.fin 1) restitution)) v)
        (fadd physicsA.invMass physicsB.invMass)
    (if physicsA.isStatic then physicsA
     else { physicsA with velocity :=
       ⟨fadd physicsA.velocity.x
          (fmul (fmul impulseMagnitude physicsA.invMass) normal.x),
        fadd physicsA.velocity.y
          (fmul (fmul impulseMagnitude physicsA.invMass) normal.y),
        fadd physicsA.velocity.z
          (fmul (fmul impulseMagnitude physicsA.invMass) normal.z)⟩ },
     if physicsB.isStatic then physicsB
     else { physicsB with velocity :=
       ⟨fsub physicsB.velocity.x
          (fmul (fmul impulseMagnitude physicsB.invMass) normal.x),
        fsub physicsB.velocity.y
          (fmul (fmul impulseMagnitude physicsB.invMass) normal.y),
        fsub physicsB.velocity.z
          (fmul (fmul impulseMagnitude physicsB.invMass) normal.z)⟩ })

/-- Embeds an exact-rational float triple as IEEE finite values. -/
def liftV (v : colsys.V3) : ecsf.FV3 := ⟨.fin v.x, .fin v.y, .fin v.z⟩

/-- Embeds an exact-rational physics component as IEEE finite values. -/
def liftP (p : colsys.PhysicsComponent) : ecsf.PhysicsComponent :=
  { velocity := liftV p.velocity,
    angularVelocity := liftV p.angularVelocity,
    mass := .fin p.mass, invMass := .fin p.invMass,
    restitution := .fin p.restitution, friction := .fin p.friction,
    isStatic := p.isStatic, useGravity := p.useGravity }

theorem velAlongNormal_lift (pA pB : colsys.PhysicsComponent)
    (normal : colsys.V3) :
    velAlongNormal (liftP pA) (liftP pB) (liftV normal) =
      .fin (colsys.velAlongNormal pA pB normal) := by
  simp only [velAlongNormal, subV, liftP, liftV, fsub, fneg, fadd, fmul,
    colsys.velAlongNormal, colsys.V3.dot, colsys.V3.sub_def]
  rw [ieee.FVal.fin.injEq]
  ring

/-- On inputs whose total inverse mass is zero only when both bodies are
static, the IEEE-value computation of `applyCollisionImpulse` agrees
with the exact-rational one: the only float error path — the 0/0 NaN of
the unguarded division — arises exactly when the divisor is zero, and
with both bodies static the NaN is discarded by the `isStatic` guards. -/
theorem applyCollisionImpulse_lift
    (pA pB : colsys.PhysicsComponent) (normal : colsys.V3)
    (hdz : pA.invMass + pB.invMass = 0 →
      pA.isStatic = true ∧ pB.isStatic = true) :
    applyCollisionImpulse (liftP pA) (liftP pB) (liftV normal) =
      (liftP (colsys.applyCollisionImpulse pA pB normal).1,
       liftP (colsys.applyCollisionImpulse pA pB normal).2) := by
  have hvel := velAlongNormal_lift pA pB normal
  have hsA2 : (liftP pA).isStatic = pA.isStatic := rfl
  have hsB2 : (liftP pB).isStatic = pB.isStatic := rfl
  by_cases hv : 0 < colsys.velAlongNormal pA pB normal
  · have hgt : fgt (FVal.fin (colsys.velAlongNormal pA pB normal))
        (.fin 0) = true := by
      simp [fgt, flt, hv]
    simp only [applyCollisionImpulse, hvel, hgt, if_true,
      colsys.applyCollisionImpulse, if_pos hv]
  · have hgt : fgt (FVal.fin (colsys.velAlongNormal pA pB normal))
        (.fin 0) = false := by
      simp [fgt, flt, hv]
    have hmin : fminStd (liftP pA).restitution (liftP pB).restitution =
        .fin (min pA.restitution pB.restitution) := by
      by_cases h : pB.restitution < pA.restitution
      · simp [fminStd, liftP, flt, h, min_eq_right h.le]
      · simp [fminStd, liftP, flt, h, min_eq_left (not_lt.mp h)]
    simp only [applyCollisionImpulse, hvel, hgt, Bool.false_eq_true,
      if_false, colsys.applyCollisionImpulse, if_neg hv, hmin, hsA2, hsB2]
    by_cases hz : pA.invMass + pB.invMass = 0
    · obtain ⟨hsA, hsB⟩ := hdz hz
      simp only [hsA, hsB, if_true]
    · by_cases hsA : pA.isStatic = true <;> by_cases hsB : pB.isStatic = true
      · simp only [hsA, hsB, if_true]
      · simp [hsA, hsB, liftP, liftV, fadd, fsub, fneg, fmul, fdiv, hz,
          colsys.V3.add_def, colsys.V3.sub_def, colsys.V3.smul_def,
          Prod.mk.injEq, ecsf.PhysicsComponent.mk.injEq,
          ecsf.FV3.mk.injEq]
        repeat' constructor
        all_goals ring
      · simp [hsA, hsB, liftP, liftV, fadd, fsub, fneg, fmul, fdiv, hz,
          colsys.V3.add_def, colsys.V3.sub_def, colsys.V3.smul_def,
          Prod.mk.injEq, ecsf.PhysicsComponent.mk.injEq,
          ecsf.FV3.mk.injEq]
      · simp [hsA, hsB, liftP, liftV, fadd, fsub, fneg, fmul, fdiv, hz,
          colsys.V3.add_def, colsys.V3.sub_def, colsys.V3.smul_def,
          Prod.mk.injEq, ecsf.PhysicsComponent.mk.injEq,
          ecsf.FV3.mk.injEq]
        repeat' constructor
        all_goals ring

/-- C5 (amended): for every resolved contact whose bodies satisfy the
invariant `isStatic → invMass = 0` and whose total inverse mass is zero
only when both bodies are static, the IEEE-float impulse computation
agrees with the exact-rational one, and the computation behaves as
claimed: with `velAlongNormal ≥ 0` neither velocity changes (at exactly
0 the computed impulse is 0), and otherwise A's velocity gains
`J·invMassA·normal` and B's loses `J·invMassB·normal`, with
`J = −(1+min(restitutionA,restitutionB))·velAlongNormal/totalInvMass`.
Without the proviso the claim fails: the float division computes
0/0 = NaN and corrupts the velocities (see the counterexample). -/
theorem applyCollisionImpulse_spec
    (pA pB : colsys.PhysicsComponent) (normal : colsys.V3)
    (hA : pA.isStatic = true → pA.invMass = 0)
    (hB : pB.isStatic = true → pB.invMass = 0)
    (hdz : pA.invMass + pB.invMass = 0 →
      pA.isStatic = true ∧ pB.isStatic = true) :
    applyCollisionImpulse (liftP pA) (liftP pB) (liftV normal) =
      (liftP (colsys.applyCollisionImpulse pA pB normal).1,
       liftP (colsys.applyCollisionImpulse pA pB normal).2) ∧
    (0 ≤ colsys.velAlongNormal pA pB normal →
      colsys.applyCollisionImpulse pA pB normal = (pA, pB)) ∧
    (colsys.velAlongNormal pA pB normal < 0 →
      (colsys.applyCollisionImpulse pA pB normal).1.velocity =
          pA.velocity +
            (colsys.impulseMagnitude pA pB normal * pA.invMass) • normal ∧
      (colsys.applyCollisionImpulse pA pB normal).2.velocity =
          pB.velocity -
            (colsys.impulseMagnitude pA pB normal * pB.invMass) • normal) :=
  ⟨applyCollisionImpulse_lift pA pB normal hdz,
   (colsys.applyCollisionImpulse_exact pA pB normal hA hB).1,
   (colsys.applyCollisionImpulse_exact pA pB normal hA hB).2⟩

/-- C5 (witness): the elastic-bounce scenario — static ground
(`invMass = 0`) against a dynamic body (`invMass = 1`, restitution 1)
approaching at normal velocity −5 along the normal (0,−1,0): the
divisor proviso holds (total inverse mass 1), the impulse branch
applies, the ground's velocity is unchanged (zero increment) and the
dynamic body's velocity becomes (0,+5,0). -/
theorem applyCollisionImpulse_spec_witness :
    colsys.velAlongNormal colsys.staticGroundPhysics
      colsys.fallingBodyPhysics ⟨0, -1, 0⟩ = -5 ∧
    (colsys.applyCollisionImpulse colsys.staticGroundPhysics
        colsys.fallingBodyPhysics ⟨0, -1, 0⟩).1.velocity =
      colsys.staticGroundPhysics.velocity +
        (colsys.impulseMagnitude colsys.staticGroundPhysics
            colsys.fallingBodyPhysics ⟨0, -1, 0⟩ *
          colsys.staticGroundPhysics.invMass) • (⟨0, -1, 0⟩ : colsys.V3) ∧
    (colsys.applyCollisionImpulse colsys.staticGroundPhysics
        colsys.fallingBodyPhysics ⟨0, -1, 0⟩).2.velocity = ⟨0, 5, 0⟩ ∧
    applyCollisionImpulse (liftP colsys.staticGroundPhysics)
        (liftP colsys.fallingBodyPhysics) (liftV ⟨0, -1, 0⟩) =
      (liftP (colsys.applyCollisionImpulse colsys.staticGroundPhysics
          colsys.fallingBodyPhysics ⟨0, -1, 0⟩).1,
       liftP (colsys.applyCollisionImpulse colsys.staticGroundPhysics
          colsys.fallingBodyPhysics ⟨0, -1, 0⟩).2) := by
  have hv := colsys.velAlongNormal_bounce_scenario
  have hspec := applyCollisionImpulse_spec colsys.staticGroundPhysics
    colsys.fallingBodyPhysics ⟨0, -1, 0⟩ (fun _ => rfl)
    (fun h => by simp [colsys.fallingBodyPhysics] at h)
    (fun h => by
      norm_num [colsys.staticGroundPhysics, colsys.fallingBodyPhysics]
        at h)
  refine ⟨hv, (hspec.2.2 (by rw [hv]; norm_num)).1, ?_, hspec.1⟩
  have h := (hspec.2.2 (by rw [hv]; norm_num)).2
  have hJ : colsys.impulseMagnitude colsys.staticGroundPhysics
      colsys.fallingBodyPhysics ⟨0, -1, 0⟩ = 10 := by
    simp only [colsys.impulseMagnitude]
    rw [hv]
    norm_num [colsys.staticGroundPhysics, colsys.fallingBodyPhysics]
  rw [h, hJ]
  norm_num [colsys.fallingBodyPhysics, colsys.V3.sub_def,
    colsys.V3.smul_def]

/-- The physics component the cited factory produces at mass = 0: a
non-static body with zero inverse mass (the C2 slip), in exact-rational
form. -/
def zeroMassDynamicPhysics : colsys.PhysicsComponent :=
  { velocity := ⟨0, 0, 0⟩, angularVelocity := ⟨0, 0, 0⟩, mass := 0,
    invMass := 0, restitution := 1/2, friction := 3/10,
    isStatic := false, useGravity := true }

/-- A store holding two such mass-0 "dynamic" unit boxes, overlapping:
entity 1 at the origin, entity 2 at (1/2, 0, 0). -/
def zeroMassPairStore : colsys.Store :=
  { transforms := fun n =>
      if n = 1 then some (colsys.transformAt 0 0 0)
      else if n = 2 then some (colsys.transformAt (1/2) 0 0) else none,
    physics := fun n =>
      if n = 1 ∨ n = 2 then some zeroMassDynamicPhysics else none,
    colliders := fun n =>
      if n = 1 ∨ n = 2 then some ⟨1, 1, 1, true⟩ else none }

/-- C5 (counterexample): two overlapping non-static bodies with
`invMass = 0` — exactly what `createDynamicPhysics(0)` builds (the C2
bug) — produce a contact through the detection pipeline, their relative
normal velocity is 0 (the claim's `velAlongNormal ≥ 0` case, which
promises unchanged velocities), yet under IEEE float semantics the
unguarded division computes 0/0 = NaN and both bodies' velocities are
NaN-corrupted: the claim as stated is false on this reachable state. -/
theorem applyCollisionImpulse_zero_mass_dynamic_nan :
    liftP zeroMassDynamicPhysics = ecsf.createDynamicPhysics (.fin 0) ∧
    (⟨1, 2, 1/2, ⟨-1, 0, 0⟩, ⟨1/4, 0, 0⟩⟩ : colsys.CollisionPair) ∈
      colsys.detectCollisions none true zeroMassPairStore [1, 2] ∧
    colsys.velAlongNormal zeroMassDynamicPhysics zeroMassDynamicPhysics
      ⟨-1, 0, 0⟩ = 0 ∧
    (liftP zeroMassDynamicPhysics).velocity.x = .fin 0 ∧
    (applyCollisionImpulse (liftP zeroMassDynamicPhysics)
        (liftP zeroMassDynamicPhysics)
        (liftV ⟨-1, 0, 0⟩)).1.velocity.x = .nan ∧
    (applyCollisionImpulse (liftP zeroMassDynamicPhysics)
        (liftP zeroMassDynamicPhysics)
        (liftV ⟨-1, 0, 0⟩)).2.velocity.x = .nan := by
  have hvq : colsys.velAlongNormal zeroMassDynamicPhysics
      zeroMassDynamicPhysics ⟨-1, 0, 0⟩ = 0 := by
    norm_num [colsys.velAlongNormal, colsys.V3.dot, colsys.V3.sub_def,
      zeroMassDynamicPhysics]
  have hlift : liftP zeroMassDynamicPhysics =
      ecsf.createDynamicPhysics (.fin 0) := by
    norm_num [liftP, liftV, zeroMassDynamicPhysics,
      ecsf.createDynamicPhysics, ecsf.createPhysicsComponent,
      ecsf.calculateInverseMass, ieee.fle]
  have habs : |(-(1/2) : ℚ)| = 1/2 := by
    rw [abs_neg, abs_of_nonneg] ; norm_num
  have hnp : colsys.narrowPhaseDetection zeroMassPairStore 1 2 =
      some ⟨1, 2, 1/2, ⟨-1, 0, 0⟩, ⟨1/4, 0, 0⟩⟩ := by
    norm_num [colsys.narrowPhaseDetection, zeroMassPairStore,
      colsys.checkBoxBoxCollision, colsys.penAxis, colsys.transformAt,
      colsys.V3.single, habs]
  have hacc : colsys.broadPhaseAccepts zeroMassPairStore 1 2 = true := by
    norm_num [colsys.broadPhaseAccepts, zeroMassPairStore,
      colsys.transformAt, colsys.calculateAABB, colsys.aabbOverlap]
  have hbp : colsys.broadPhaseDetection zeroMassPairStore [1, 2] =
      [(1, 2)] := by
    simp [colsys.broadPhaseDetection, colsys.loopPairs,
      List.filter_cons, hacc]
  have hmem : (⟨1, 2, 1/2, ⟨-1, 0, 0⟩, ⟨1/4, 0, 0⟩⟩ :
      colsys.CollisionPair) ∈
      colsys.detectCollisions none true zeroMassPairStore [1, 2] := by
    simp [colsys.detectCollisions, hbp, colsys.canEntitiesCollide,
      List.filterMap_cons, hnp]
  refine ⟨hlift, hmem, hvq, rfl, ?_, ?_⟩ <;>
    norm_num [applyCollisionImpulse, velAlongNormal, subV, liftP, liftV,
      zeroMassDynamicPhysics, fgt, flt, fminStd, fadd, fsub, fneg, fmul,
      fdiv]

end colsysf

namespace cpsys

open colsys (transformAt boxTwo staticGroundPhysics fallingBodyPhysics)

/-- A layer map holding only the default layer (id 1), which interacts
with itself. -/
def layersDefaultOnly : LayerMap := [(1, ⟨1, "Default", [1]⟩)]

/-- Dynamic box (entity 1) at (3/2, 0, 0) on layer 1. -/
def dynBoxBody : RigidBodyComponent :=
  { entityId := 1, transform := transformAt (3/2) 0 0,
    physics := fallingBodyPhysics, collider := boxTwo,
    layer := 1, hasCollider := true }

/-- Static box (entity 2) at the origin on layer 1. -/
def staticBoxBody : RigidBodyComponent :=
  { entityId := 2, transform := transformAt 0 0 0,
    physics := staticGroundPhysics, collider := boxTwo,
    layer := 1, hasCollider := true }

/-- C6 (counterexample): `CPUPhysicsSystem::resolveCollision` — the
second resolver cited by the claim — pushes a body by the full
`penetration * (own invMass / totalInvMass)`, without the 0.5 factor.
Here the pair survives the layer/collider/AABB guards (a contact is
produced and resolved), penetration is 1/2, the dynamic body has
invMass ratio 1, and its x coordinate moves from 3/2 to 2, not to the
claimed 3/2 + 1/2·(1/2)·1 = 7/4. -/
theorem resolveCollision_pushes_full_penetration :
    (processPair layersDefaultOnly dynBoxBody staticBoxBody).2.2 =
      [(1, 2)] ∧
    (resolveCollision dynBoxBody staticBoxBody).1.transform.position.x =
      2 ∧
    (2 : ℚ) ≠ 3/2 + 1/2 * (1/2) * (1/1) := by
  have habs : |(3/2 : ℚ)| = 3/2 := by
    rw [abs_of_nonneg] ; norm_num
  have hmin : min (min (1/2 : ℚ) 2) 2 = 1/2 := by
    norm_num [min_def]
  have hres : (resolveCollision dynBoxBody staticBoxBody).1.transform.position.x = 2 := by
    norm_num [resolveCollision, dynBoxBody, staticBoxBody, transformAt,
      boxTwo, fallingBodyPhysics, staticGroundPhysics, habs, hmin,
      colsys.V3.add_def, colsys.V3.sub_def]
  have hbox : checkBoxBoxCollision dynBoxBody staticBoxBody = true := by
    norm_num [checkBoxBoxCollision, dynBoxBody, staticBoxBody,
      transformAt, boxTwo]
  refine ⟨?_, hres, by norm_num⟩
  have hcan : canLayersInteract layersDefaultOnly dynBoxBody.layer
      staticBoxBody.layer = true := by
    simp [canLayersInteract, layersDefaultOnly, ecsf.getAssoc]
    rfl
  have hid1 : dynBoxBody.entityId = 1 := rfl
  have hid2 : staticBoxBody.entityId = 2 := rfl
  have hflag1 : dynBoxBody.hasCollider = true := rfl
  have hflag2 : staticBoxBody.hasCollider = true := rfl
  have hen1 : dynBoxBody.collider.enabled = true := rfl
  have hen2 : staticBoxBody.collider.enabled = true := rfl
  rcases hr : resolveCollision dynBoxBody staticBoxBody with ⟨r1, r2⟩
  simp [processPair, hcan, hid1, hid2, hflag1, hflag2, hen1, hen2,
    hbox, hr]

/-- The entity-id / layer projection of a stored body; collision
resolution rewrites only transform and physics, never this pair. -/
def proj (body : RigidBodyComponent) : ℕ × ℕ := (body.entityId, body.layer)

theorem resolveCollision_proj (body1 body2 : RigidBodyComponent) :
    proj (resolveCollision body1 body2).1 = proj body1 ∧
    proj (resolveCollision body1 body2).2 = proj body2 := by
  unfold resolveCollision
  dsimp only
  split_ifs <;> exact ⟨rfl, rfl⟩

theorem processPair_spec (layers : LayerMap)
    (body1 body2 : RigidBodyComponent) :
    proj (processPair layers body1 body2).1 = proj body1 ∧
    proj (processPair layers body1 body2).2.1 = proj body2 ∧
    ∀ pr ∈ (processPair layers body1 body2).2.2,
      pr = (body1.entityId, body2.entityId) ∧
      canLayersInteract layers body1.layer body2.layer = true := by
  have hrp := resolveCollision_proj body1 body2
  rw [processPair]
  split_ifs with h1 h2 h3
  · simp
  · simp
  · rcases hres : resolveCollision body1 body2 with ⟨c1, c2⟩
    rw [hres] at hrp
    simp only [Bool.not_eq_true'] at h1
    have hcan : canLayersInteract layers body1.layer body2.layer = true :=
      by_contra fun hc => h1 (Bool.not_eq_true _ ▸ (Bool.eq_false_iff.mpr hc))
    refine ⟨hrp.1, hrp.2, ?_⟩
    intro pr hpr
    rcases List.mem_singleton.mp hpr with rfl
    exact ⟨rfl, hcan⟩
  · simp

theorem innerLoop_spec (layers : LayerMap) (body1 : RigidBodyComponent)
    (rest : List RigidBodyComponent) :
    proj (innerLoop layers body1 rest).1 = proj body1 ∧
    ((innerLoop layers body1 rest).2.1).map proj = rest.map proj ∧
    ∀ pr ∈ (innerLoop layers body1 rest).2.2,
      pr.1 = body1.entityId ∧
      ∃ r ∈ rest, pr.2 = r.entityId ∧
        canLayersInteract layers body1.layer r.layer = true := by
  induction rest generalizing body1 with
  | nil => exact ⟨rfl, rfl, fun pr hpr => absurd hpr (List.not_mem_nil _)⟩
  | cons body2 rest ih =>
      rcases hpp : processPair layers body1 body2 with ⟨b1a, b2a, produced⟩
      have hps := processPair_spec layers body1 body2
      rw [hpp] at hps
      rcases hil : innerLoop layers b1a rest with ⟨b1b, rest1, cs⟩
      have his := ih b1a
      rw [hil] at his
      simp only [innerLoop, hpp, hil]
      have hid : b1a.entityId = body1.entityId := congrArg Prod.fst hps.1
      have hlay : b1a.layer = body1.layer := congrArg Prod.snd hps.1
      refine ⟨?_, ?_, ?_⟩
      · rw [his.1, hps.1]
      · simp only [List.map_cons, his.2.1, hps.2.1]
      · intro pr hpr
        rcases List.mem_append.mp hpr with h | h
        · obtain ⟨hpr_eq, hcan⟩ := hps.2.2 pr h
          subst hpr_eq
          exact ⟨rfl, body2, List.mem_cons_self _ _, rfl, hcan⟩
        · obtain ⟨h1, r, hr, h2, h3⟩ := his.2.2 pr h
          exact ⟨by rw [h1, hid], r, List.mem_cons_of_mem _ hr, h2,
            by rw [← hlay]; exact h3⟩

theorem outerLoop_spec (layers : LayerMap) :
    ∀ (fuel : ℕ) (bodies : List RigidBodyComponent),
      ∀ pr ∈ (outerLoop layers fuel bodies).2,
        ∃ x ∈ bodies.map proj, ∃ y ∈ bodies.map proj,
          pr.1 = x.1 ∧ pr.2 = y.1 ∧
          canLayersInteract layers x.2 y.2 = true := by
  intro fuel
  induction fuel with
  | zero =>
      intro bodies pr hpr
      simp [outerLoop] at hpr
  | succ fuel ih =>
      intro bodies pr hpr
      cases bodies with
      | nil => simp [outerLoop] at hpr
      | cons body1 rest =>
          rcases hil : innerLoop layers body1 rest with ⟨b1a, rest1, cs⟩
          have his := innerLoop_spec layers body1 rest
          rw [hil] at his
          rcases hol : outerLoop layers fuel rest1 with ⟨rest2, cs1⟩
          simp only [outerLoop, hil, hol, List.mem_append] at hpr
          rcases hpr with h | h
          · obtain ⟨h1, r, hr, h2, h3⟩ := his.2.2 pr h
            refine ⟨proj body1, ?_, proj r, ?_, h1, h2, h3⟩
            · simp only [List.map_cons]
              exact List.mem_cons_self _ _
            · simp only [List.map_cons]
              exact List.mem_cons_of_mem _ (List.mem_map_of_mem proj hr)
          · obtain ⟨x, hx, y, hy, h1, h2, h3⟩ :=
              ih rest1 pr (by rw [hol]; exact h)
            rw [his.2.1] at hx hy
            refine ⟨x, ?_, y, ?_, h1, h2, h3⟩
            · simp only [List.map_cons]
              exact List.mem_cons_of_mem _ hx
            · simp only [List.map_cons]
              exact List.mem_cons_of_mem _ hy

/-- C1: in `CPUPhysicsSystem::detectAndResolveCollisions`, the layer
filter runs before the collider and AABB checks: for any two stored
bodies (with distinct entity ids) whose layers cannot interact according
to `canLayersInteract`, the tick produces and resolves no contact for
that pair, in either order. -/
theorem layer_filtered_pair_produces_no_contact
    (layers : LayerMap) (bodies : List RigidBodyComponent)
    (bodyA bodyB : RigidBodyComponent)
    (hA : bodyA ∈ bodies) (hB : bodyB ∈ bodies)
    (hnodup : (bodies.map RigidBodyComponent.entityId).Nodup)
    (hAB : canLayersInteract layers bodyA.layer bodyB.layer = false)
    (hBA : canLayersInteract layers bodyB.layer bodyA.layer = false) :
    (bodyA.entityId, bodyB.entityId) ∉
      (detectAndResolveCollisions layers bodies).2 ∧
    (bodyB.entityId, bodyA.entityId) ∉
      (detectAndResolveCollisions layers bodies).2 := by
  have key : ∀ (u v : RigidBodyComponent), u ∈ bodies → v ∈ bodies →
      canLayersInteract layers u.layer v.layer = false →
      (u.entityId, v.entityId) ∉
        (detectAndResolveCollisions layers bodies).2 := by
    intro u v hu hv hcan hmem
    obtain ⟨x, hx, y, hy, h1, h2, h3⟩ :=
      outerLoop_spec layers bodies.length bodies _ hmem
    obtain ⟨bx, hbx, hbxe⟩ := List.mem_map.mp hx
    obtain ⟨bz, hbz, hbze⟩ := List.mem_map.mp hy
    have hbid : bx.entityId = u.entityId :=
      (congrArg Prod.fst hbxe).trans h1.symm
    have hzid : bz.entityId = v.entityId :=
      (congrArg Prod.fst hbze).trans h2.symm
    have hbxu : bx = u := List.inj_on_of_nodup_map hnodup hbx hu hbid
    have hbzv : bz = v := List.inj_on_of_nodup_map hnodup hbz hv hzid
    have hlx : x.2 = u.layer := by rw [← hbxe, hbxu]; exact rfl
    have hly : y.2 = v.layer := by rw [← hbze, hbzv]; exact rfl
    rw [hlx, hly, hcan] at h3
    exact Bool.false_ne_true h3
  exact ⟨key bodyA bodyB hA hB hAB, key bodyB bodyA hB hA hBA⟩

/-- Two layers: the default layer 1 (self-interacting) and layer 2,
which interacts with nothing. -/
def layersTwo : LayerMap :=
  [(1, ⟨1, "Default", [1]⟩), (2, ⟨2, "Ghost", []⟩)]

/-- A static box (entity 2) at the origin on the non-interacting
layer 2; its AABB overlaps `dynBoxBody`. -/
def ghostBoxBody : RigidBodyComponent :=
  { entityId := 2, transform := transformAt 0 0 0,
    physics := staticGroundPhysics, collider := boxTwo,
    layer := 2, hasCollider := true }

/-- C1 (witness): with the dynamic box on layer 1 and the overlapping
ghost box on layer 2 (layers that cannot interact), no contact for the
pair appears in a tick over those two bodies. -/
theorem layer_filtered_pair_produces_no_contact_witness :
    canLayersInteract layersTwo dynBoxBody.layer ghostBoxBody.layer =
      false ∧
    (dynBoxBody.entityId, ghostBoxBody.entityId) ∉
      (detectAndResolveCollisions layersTwo [dynBoxBody, ghostBoxBody]).2 :=
  ⟨rfl,
   (layer_filtered_pair_produces_no_contact layersTwo
      [dynBoxBody, ghostBoxBody] dynBoxBody ghostBoxBody
      (List.mem_cons_self _ _)
      (List.mem_cons_of_mem _ (List.mem_cons_self _ _))
      (by decide) rfl rfl).1⟩

end cpsys
